import Mathlib

/-!
Verification of the DataHub Soda plugin handler
(`metadata-ingestion-modules/soda-plugin/src/datahub_soda_plugin/handler.py`).

The handler is shallowly embedded: Python runtime values are modelled by the
`PyVal` inductive, fallible Python code (code that can raise) is modelled in
`Except String`, and the emitter side effects of `process_scan_result` are
modelled as an explicit event log threaded through the loops.  Functions of
the DataHub SDK that the handler calls but whose code is not part of the
sources under verification (`datahub_guid`, the urn builders) are modelled
from the spec, each marked `Modelled from the spec:` in its doc comment.
-/

/-- Model of a Python runtime value, covering the shapes that flow through the
handler: `None`, strings, ints, floats (modelled as rationals), bools, lists
and string-keyed dicts (modelled as association lists in insertion order). -/
inductive PyVal where
  | pynone
  | str (s : String)
  | int (n : Int)
  | float (q : Rat)
  | bool (b : Bool)
  | list (l : List PyVal)
  | dict (d : List (String × PyVal))

/-- Python truthiness (`if x:`): `None`, `""`, `0`, `0.0`, `False`, `[]` and
an empty dict are falsy, everything else is truthy. -/
def PyVal.truthy : PyVal → Bool
  | .pynone => false
  | .str s => !(s = "")
  | .int n => !(n = 0)
  | .float q => !(q = 0)
  | .bool b => b
  | .list l => !l.isEmpty
  | .dict d => !d.isEmpty

/-- Python `isinstance(v, (int, float))`.  Python's `bool` is a subclass of
`int`, so booleans count as numeric. -/
def PyVal.isNumeric : PyVal → Bool
  | .int _ => true
  | .float _ => true
  | .bool _ => true
  | _ => false

/-- Numeric value of a Python scalar, used for Python's cross-type numeric
equality (`1 == 1.0 == True`). -/
def PyVal.numVal? : PyVal → Option Rat
  | .int n => some (n : Rat)
  | .float q => some q
  | .bool b => some (if b then 1 else 0)
  | _ => none

mutual
/-- Python `==` on runtime values: numeric values compare by value across
`int`/`float`/`bool`, strings compare as strings, lists compare pointwise.
Simplification: dict comparison is modelled pointwise in insertion order
(Python dict equality ignores order; no check in this code base compares
dict-valued fields, so the difference is not observable in the claims). -/
def pyEq : PyVal → PyVal → Bool
  | .pynone, .pynone => true
  | .str a, .str b => a == b
  | .list l1, .list l2 => pyEqList l1 l2
  | .dict d1, .dict d2 => pyEqPairs d1 d2
  | a, b =>
    match a.numVal?, b.numVal? with
    | some x, some y => x == y
    | _, _ => false
def pyEqList : List PyVal → List PyVal → Bool
  | [], [] => true
  | a :: ar, b :: br => pyEq a b && pyEqList ar br
  | _, _ => false
def pyEqPairs : List (String × PyVal) → List (String × PyVal) → Bool
  | [], [] => true
  | (k1, v1) :: r1, (k2, v2) :: r2 => k1 == k2 && pyEq v1 v2 && pyEqPairs r1 r2
  | _, _ => false
end

/-- Lookup in a string-keyed dict, returning the given default when the key is
absent (Python `d.get(k, dflt)`). -/
def pyDictGetD (d : List (String × PyVal)) (k : String) (dflt : PyVal) : PyVal :=
  match d.find? (fun kv => kv.1 == k) with
  | some kv => kv.2
  | none => dflt

/-- Python `d.get(k)` (default `None`). -/
def pyDictGet (d : List (String × PyVal)) (k : String) : PyVal :=
  pyDictGetD d k .pynone

/-- Accessing `.get` on a value: raises `AttributeError` unless the value is a
dict. -/
def asDict : PyVal → Except String (List (String × PyVal))
  | .dict d => .ok d
  | _ => .error "AttributeError: object has no attribute get"

/-- ASCII lower-casing of a string, modelling Python `str.lower` on the ASCII
inputs that occur here (character-wise lowering). -/
def pyToLower (s : String) : String := String.mk (s.data.map Char.toLower)

/-- Python `v.lower()`: raises `AttributeError` unless `v` is a string. -/
def pyLower : PyVal → Except String String
  | .str s => .ok (pyToLower s)
  | _ => .error "AttributeError: object has no attribute lower"

/-- Python iteration `for x in v`: lists yield their elements, strings yield
one-character strings, dicts yield their keys; other values raise
`TypeError`. -/
def pyIter : PyVal → Except String (List PyVal)
  | .list l => .ok l
  | .str s => .ok (s.data.map (fun c => .str (String.mk [c])))
  | .dict d => .ok (d.map (fun kv => .str kv.1))
  | _ => .error "TypeError: object is not iterable"

/-- Whether the first character list is a prefix of the second. -/
def listStartsWith : List Char → List Char → Bool
  | [], _ => true
  | _ :: _, [] => false
  | a :: as, b :: bs => (a == b) && listStartsWith as bs

/-- Whether the first character list occurs contiguously in the second. -/
def listContainsSub (pat : List Char) : List Char → Bool
  | [] => pat.isEmpty
  | b :: bs => listStartsWith pat (b :: bs) || listContainsSub pat bs

/-- Python substring containment `pat in s`. -/
def pyIn (pat s : String) : Bool := listContainsSub pat.data s.data

/-- Decimal integer literal parse, modelling Python `int(str)` on the inputs
that occur here: optional sign followed by at least one digit. -/
def intOfDecimalStr (s : String) : Option Int :=
  let core : List Char → Option Nat := fun cs =>
    if cs.isEmpty then none
    else if cs.all Char.isDigit then
      some (cs.foldl (fun n c => n * 10 + (c.toNat - 48)) 0)
    else none
  match s.data with
  | '-' :: rest => (core rest).map (fun n => -(n : Int))
  | '+' :: rest => (core rest).map (fun n => (n : Int))
  | cs => (core cs).map (fun n => (n : Int))

/-- Embedding of `parse_int_or_default` (handler.py lines 547-554): `None`
maps to the default, `int(value)` is attempted and any `ValueError`/`TypeError`
falls back to the default.  `int()` truncates floats toward zero and maps
`True`/`False` to `1`/`0`. -/
def parse_int_or_default (value : PyVal) (default_value : Option Int) : Option Int :=
  match value with
  | .pynone => default_value
  | .int n => some n
  | .bool b => some (if b then 1 else 0)
  | .float q => some (Int.tdiv q.num (q.den : Int))
  | .str s =>
    match intOfDecimalStr s with
    | some n => some n
    | none => default_value
  | _ => default_value

/-- Rendering of a float, approximating Python `str` on floats (exact float
formatting is outside the model; no claim depends on it). -/
def floatStr (q : Rat) : String :=
  if q.den = 1 then toString q.num ++ ".0" else toString q.num ++ "/" ++ toString q.den

mutual
/-- Model of `json.dumps(v, default=str)` for the values reachable here.
Exact JSON escaping is not modelled; no claim depends on the rendered text. -/
def jsonDumps : PyVal → String
  | .pynone => "null"
  | .str s => "\"" ++ s ++ "\""
  | .int n => toString n
  | .float q => floatStr q
  | .bool b => if b then "true" else "false"
  | .list l => "[" ++ jsonDumpsList l ++ "]"
  | .dict d => "\x7b" ++ jsonDumpsPairs d ++ "\x7d"
def jsonDumpsList : List PyVal → String
  | [] => ""
  | [v] => jsonDumps v
  | v :: r => jsonDumps v ++ ", " ++ jsonDumpsList r
def jsonDumpsPairs : List (String × PyVal) → String
  | [] => ""
  | [(k, v)] => "\"" ++ k ++ "\": " ++ jsonDumps v
  | (k, v) :: r => "\"" ++ k ++ "\": " ++ jsonDumps v ++ ", " ++ jsonDumpsPairs r
end

/-- Python `str(v)` for the scalar values that reach string formatting. -/
def pyStr : PyVal → String
  | .str s => s
  | .int n => toString n
  | .float q => floatStr q
  | .bool b => if b then "True" else "False"
  | .pynone => "None"
  | v => jsonDumps v

/-- Embedding of `convert_to_string` (handler.py lines 557-568): strings, ints
and floats (and bools, which are ints in Python) render via `str`; every other
value goes through `json.dumps(var, default=str)`.  The `Decimal` branch is
unreachable in the model (`PyVal` has no separate decimal shape). -/
def convert_to_string (var : PyVal) : String
  := match var with
  | .str s => s
  | .int n => toString n
  | .bool b => if b then "True" else "False"
  | .float q => floatStr q
  | v => jsonDumps v

/-! External DataHub SDK builders used by the handler.  Their code is part of
the wider repository but not among the sources under verification, so they are
modelled from the spec. -/

/-- Modelled from the spec: `builder.make_data_platform_urn` of the DataHub
SDK is not in the verified sources; the spec only requires a deterministic
platform urn for the fixed platform name "soda". -/
def makeDataPlatformUrn (platform : String) : String :=
  "urn:li:dataPlatform:" ++ platform

/-- Modelled from the spec: `builder.make_schema_field_urn` of the DataHub SDK
is not in the verified sources; the spec calls its results "field ids" and
only requires a deterministic string built from the dataset identifier and the
column.  Non-string columns render through `str`, as an f-string would. -/
def makeSchemaFieldUrn (dataset_urn : String) (column : PyVal) : String :=
  "urn:li:schemaField:(" ++ dataset_urn ++ "," ++ pyStr column ++ ")"

/-- Modelled from the spec: `builder.make_dataset_urn_with_platform_instance`
of the DataHub SDK is not in the verified sources.  Per spec section 3 the
dataset identifier is an opaque string built deterministically from platform
name, optional platform instance, composed dataset name and environment tag;
an empty instance (the handler passes `platform_instance or ""`) contributes
nothing. -/
def makeDatasetUrnWithPlatformInstance (platform name pinst env : String) : String :=
  "urn:li:dataset:(urn:li:dataPlatform:" ++ platform ++ ","
    ++ (if pinst = "" then name else pinst ++ "." ++ name)
    ++ "," ++ env ++ ")"

/-- Modelled from the spec: `builder.make_assertion_urn` wraps the guid into
an assertion urn. -/
def makeAssertionUrn (guid : String) : String :=
  "urn:li:assertion:" ++ guid

instance instEncodableChar : Encodable Char :=
  Encodable.ofLeftInjection Char.toNat (fun n => some (Char.ofNat n))
    (fun c => by simp [Char.ofNat_toNat])

instance instEncodableString : Encodable String :=
  Encodable.ofLeftInjection String.data (fun l => some (String.mk l))
    (fun s => by cases s; rfl)

/-- Injective encoding of a string into a natural number, used by the model of
the content hash. -/
def strEnc (s : String) : Nat := Encodable.encode s

/-- Injective encoding of the optional field-id list into a natural number. -/
def fieldsEnc (f : Option (List String)) : Nat := Encodable.encode f

mutual
/-- Injective encoding of a Python value into a natural number (constructor
tag paired with an injective payload), used by the model of the content
hash. -/
def pyEncode : PyVal → Nat
  | .pynone => Nat.pair 0 0
  | .str s => Nat.pair 1 (strEnc s)
  | .int n => Nat.pair 2 (Encodable.encode n)
  | .float q => Nat.pair 3 (Nat.pair (Encodable.encode q.num) q.den)
  | .bool b => Nat.pair 4 (cond b 1 0)
  | .list l => Nat.pair 5 (pyEncodeList l)
  | .dict d => Nat.pair 6 (pyEncodePairs d)
def pyEncodeList : List PyVal → Nat
  | [] => 0
  | v :: r => Nat.pair (pyEncode v) (pyEncodeList r) + 1
def pyEncodePairs : List (String × PyVal) → Nat
  | [] => 0
  | (k, v) :: r => Nat.pair (strEnc k) (Nat.pair (pyEncode v) (pyEncodePairs r)) + 1
end

/-- The canonical tuple hashed into the assertion identifier
(handler.py lines 354-367): platform, native type, the definition carried in
`nativeParameters`, dataset urn, optional field urns, and check name. -/
structure GuidTuple where
  platform : String
  nativeType : PyVal
  definition : PyVal
  dataset : String
  fields : Option (List String)
  checkName : PyVal

/-- Injective encoding of the canonical guid tuple into a natural number. -/
def guidTupleEnc (t : GuidTuple) : Nat :=
  Nat.pair (strEnc t.platform)
    (Nat.pair (pyEncode t.nativeType)
      (Nat.pair (pyEncode t.definition)
        (Nat.pair (strEnc t.dataset)
          (Nat.pair (fieldsEnc t.fields) (pyEncode t.checkName)))))

/-- Modelled from the spec: `builder.datahub_guid` (with `pre_json_transform`)
of the DataHub SDK is not in the verified sources.  The spec specifies a
deterministic, collision-resistant content hash over the canonical tuple —
same tuple always yields the same identifier, any field change yields a
different identifier — so the hash is modelled as an injective deterministic
encoding of the tuple into a string. -/
def datahub_guid (t : GuidTuple) : String :=
  String.mk (List.replicate (guidTupleEnc t) 'g')

/-! Data model of the emitted assertion aspects, mirroring the fields the
handler populates on the DataHub metadata classes. -/

inductive AssertionResultType where
  | SUCCESS
  | FAILURE
  deriving DecidableEq

inductive DatasetAssertionScope where
  | DATASET_ROWS
  | DATASET_COLUMN
  | DATASET_SCHEMA
  deriving DecidableEq

inductive AssertionStdOperator where
  | NOT_NULL
  | NATIVE
  deriving DecidableEq

inductive AssertionStdAggregation where
  | IDENTITY
  | UNIQUE_COUNT
  | ROW_COUNT
  | COLUMNS
  | NATIVE
  deriving DecidableEq

structure DatasetAssertionInfo where
  dataset : String
  fields : Option (List String)
  operator : AssertionStdOperator
  aggregation : AssertionStdAggregation
  nativeType : PyVal
  nativeParameters : List (String × PyVal)
  scope : DatasetAssertionScope

structure AssertionInfo where
  assertionType : String
  datasetAssertion : DatasetAssertionInfo
  customProperties : List (String × PyVal)

structure BatchSpec where
  nativeBatchId : PyVal
  query : PyVal
  customProperties : List (String × PyVal)

structure AssertionResultRec where
  resultType : AssertionResultType
  rowCount : Option Int
  missingCount : Option Int
  unexpectedCount : Option Int
  actualAggValue : Option PyVal
  nativeResults : List (String × String)

structure AssertionRunEvent where
  timestampMillis : Nat
  assertionUrn : String
  asserteeUrn : String
  runId : String
  result : AssertionResultRec
  batchSpec : BatchSpec
  status : String

/-- Constructor-time configuration of `DataHubSodaHandler` (handler.py lines
62-102); only the fields the verified logic reads are modelled (server url,
token, timeouts and retry settings are passed through to the external emitter
untouched). -/
structure HandlerConfig where
  env : String
  platform_alias : Option String
  platform_instance_map : List (String × String)
  graceful_exceptions : Bool
  convert_urns_to_lowercase : Bool

/-! Embedding of `DataHubSodaHandler._build_dataset_urn`
(handler.py lines 233-291). -/

/-- The static data-source to platform lookup table
(handler.py lines 255-265). -/
def sodaPlatformMap : List (String × String) :=
  [("postgres", "postgres"), ("snowflake", "snowflake"), ("bigquery", "bigquery"),
   ("redshift", "redshift"), ("mysql", "mysql"), ("mssql", "mssql"),
   ("oracle", "oracle"), ("databricks", "databricks"), ("spark", "spark")]

/-- Platform lookup `platform_map.get(lowered, lowered)`
(handler.py lines 267-269). -/
def platformMapGetD (lowered : String) : String :=
  match sodaPlatformMap.find? (fun kv => kv.1 == lowered) with
  | some kv => kv.2
  | none => lowered

/-- Platform resolution `self.platform_alias or platform_map.get(...)`
(handler.py lines 267-269): a truthy alias short-circuits, so
`data_source_name.lower()` is only evaluated (and can only raise) when the
alias is `None` or empty. -/
def resolvePlatform (cfg : HandlerConfig) (data_source_name : PyVal) : Except String String :=
  match cfg.platform_alias with
  | some a =>
    if a = "" then (pyLower data_source_name).map platformMapGetD
    else .ok a
  | none => (pyLower data_source_name).map platformMapGetD

/-- Dataset-name composition (handler.py lines 271-277): Python f-strings
stringify their parts, while the bare-table branch passes the table value
through unchanged. -/
def composeDatasetName (database_name schema_name table_name : PyVal) : PyVal :=
  if database_name.truthy && schema_name.truthy then
    .str (pyStr database_name ++ "." ++ pyStr schema_name ++ "." ++ pyStr table_name)
  else if schema_name.truthy then
    .str (pyStr schema_name ++ "." ++ pyStr table_name)
  else table_name

/-- Embedding of `_build_dataset_urn` (handler.py lines 233-291).  The
`convert_urns_to_lowercase` fold runs outside the try block, so `.lower()` on
a non-string composed name raises to the caller; the final urn construction
runs inside the try block, whose failure is modelled by a non-string dataset
name and yields `none` ("skip this dataset"). -/
def buildDatasetUrn (cfg : HandlerConfig) (data_source_name database_name schema_name table_name : PyVal) (platform_instance : Option String) : Except String (Option String) :=
  match resolvePlatform cfg data_source_name with
  | .error e => .error e
  | .ok platform =>
    let composed := composeDatasetName database_name schema_name table_name
    let loweredE : Except String PyVal :=
      if cfg.convert_urns_to_lowercase then (pyLower composed).map PyVal.str
      else .ok composed
    match loweredE with
    | .error e => .error e
    | .ok dataset_name =>
      match dataset_name with
      | .str nm =>
        .ok (some (makeDatasetUrnWithPlatformInstance platform nm
          (platform_instance.getD "") cfg.env))
      | _ => .ok none

/-! Embedding of `DataHubSodaHandler._build_assertion_info`
(handler.py lines 418-490). -/

/-- Truthiness of the optional assertion-field list (`if assertion_fields:`):
`None` and the empty list are falsy. -/
def fieldsTruthy : Option (List String) → Bool
  | none => false
  | some l => !l.isEmpty

/-- The scope/operator/aggregation classification of `_build_assertion_info`
(handler.py lines 441-474): lower-cased substring tests in source order over
the defaults rows/native/native. -/
def classifyCheckType (check_lower : String) (hasFields : Bool) :
    DatasetAssertionScope × AssertionStdOperator × AssertionStdAggregation :=
  if pyIn "null" check_lower || pyIn "missing" check_lower then
    ((if hasFields then .DATASET_COLUMN else .DATASET_ROWS), .NOT_NULL, .IDENTITY)
  else if pyIn "unique" check_lower then
    ((if hasFields then .DATASET_COLUMN else .DATASET_ROWS), .NATIVE, .UNIQUE_COUNT)
  else if pyIn "row_count" check_lower || pyIn "count" check_lower then
    (.DATASET_ROWS, .NATIVE, .ROW_COUNT)
  else if pyIn "schema" check_lower then
    (.DATASET_SCHEMA, .NATIVE, .COLUMNS)
  else if hasFields then
    (.DATASET_COLUMN, .NATIVE, .NATIVE)
  else
    (.DATASET_ROWS, .NATIVE, .NATIVE)

/-- Embedding of `_build_assertion_info` (handler.py lines 418-490):
`check_type.lower()` raises on a non-string check type; otherwise the
assertion info is assembled from the classification. -/
def buildAssertionInfo (check_type definition : PyVal) (dataset_urn : String)
    (assertion_fields : Option (List String)) (check_name : PyVal) :
    Except String AssertionInfo :=
  match pyLower check_type with
  | .error e => .error e
  | .ok check_lower =>
    let c := classifyCheckType check_lower (fieldsTruthy assertion_fields)
    .ok
      { assertionType := "DATASET"
        datasetAssertion :=
          { dataset := dataset_urn
            fields := assertion_fields
            operator := c.2.1
            aggregation := c.2.2
            nativeType := check_type
            nativeParameters := [("definition", definition)]
            scope := c.1 }
        customProperties :=
          [("check_name", check_name), ("soda_check_type", check_type)] }

/-! Embedding of `DataHubSodaHandler._convert_check_to_assertion`
(handler.py lines 293-416). -/

/-- Accumulator of the metric-extraction loop (handler.py lines 328-345). -/
structure MetricAcc where
  row_count : Option Int
  missing_count : Option Int
  unexpected_count : Option Int
  actual_agg_value : Option PyVal

/-- Initial accumulator: all four extracted metrics start as `None`. -/
def MetricAcc.init : MetricAcc := ⟨none, none, none, none⟩

/-- The aggregation metric ids (handler.py line 343). -/
def aggMetricIds : List String := ["min", "max", "avg", "sum", "count"]

/-- One iteration of the metric loop (handler.py lines 334-345) over a metric
that is a dict: the `if`/`elif` chain on `metric.get("id", "")`, assigning the
matching slot.  The aggregation branch assigns unconditionally, so a later
matching numeric metric overwrites an earlier one. -/
def metricStep (acc : MetricAcc) (md : List (String × PyVal)) : MetricAcc :=
  let metric_id := pyDictGetD md "id" (.str "")
  let metric_value := pyDictGet md "value"
  if pyEq metric_id (.str "row_count") then
    { acc with row_count := parse_int_or_default metric_value none }
  else if pyEq metric_id (.str "missing_count") then
    { acc with missing_count := parse_int_or_default metric_value none }
  else if pyEq metric_id (.str "unexpected_count") then
    { acc with unexpected_count := parse_int_or_default metric_value none }
  else if aggMetricIds.any (fun s => pyEq metric_id (.str s)) then
    if metric_value.isNumeric then { acc with actual_agg_value := some metric_value }
    else acc
  else acc

/-- The metric loop (handler.py lines 334-345): `metric.get` raises on a
non-dict element. -/
def processMetrics : List PyVal → MetricAcc → Except String MetricAcc
  | [], acc => .ok acc
  | m :: rest, acc =>
    match m with
    | .dict md => processMetrics rest (metricStep acc md)
    | _ => .error "AttributeError: object has no attribute get"

/-- The assertion fields (handler.py lines 348-352): a single schema-field urn
when the column is truthy, otherwise `None`. -/
def assertionFieldsOf (dataset_urn : String) (column_name : PyVal) : Option (List String) :=
  if column_name.truthy then some [makeSchemaFieldUrn dataset_urn column_name]
  else none

/-- The canonical guid tuple assembled in `_convert_check_to_assertion`
(handler.py lines 354-367), with platform fixed to "soda". -/
def guidTupleOfCheck (check_type definition : PyVal) (dataset_urn : String)
    (assertion_fields : Option (List String)) (check_name : PyVal) : GuidTuple :=
  { platform := "soda"
    nativeType := check_type
    definition := definition
    dataset := dataset_urn
    fields := assertion_fields
    checkName := check_name }

/-- Python identity test `v is None`. -/
def isPyNone : PyVal → Bool
  | .pynone => true
  | _ => false

/-- The `native_results` mapping (handler.py lines 401-406): every key of the
check except `name`/`type`/`definition`/`outcome`, excluding `None` values,
stringified. -/
def nativeResultsOf (chd : List (String × PyVal)) : List (String × String) :=
  (chd.filter (fun kv =>
      !((["name", "type", "definition", "outcome"] : List String).contains kv.1)
        && !(isPyNone kv.2))).map
    (fun kv => (kv.1, convert_to_string kv.2))

/-- The body of `_convert_check_to_assertion` inside its try block
(handler.py lines 312-412), in source order: field extraction, success
determination (`outcome.lower()` can raise), the metric loop (can raise on
malformed metrics), assertion fields, assertion urn, assertion info
(`check_type.lower()` can raise), batch spec and run event. -/
def convertBody (check : PyVal) (dataset_urn : String) (scan_id : PyVal)
    (run_id : String) (now_ms : Nat) :
    Except String (AssertionInfo × AssertionRunEvent) :=
  match asDict check with
  | .error e => .error e
  | .ok chd =>
    let check_name := pyDictGetD chd "name" (.str "unknown_check")
    let check_type := pyDictGetD chd "type" (.str "unknown")
    let definition := pyDictGetD chd "definition" (.str "")
    let outcome := pyDictGetD chd "outcome" (.str "unknown")
    let metrics := pyDictGetD chd "metrics" (.list [])
    let column_name := pyDictGetD chd "column" .pynone
    match pyLower outcome with
    | .error e => .error e
    | .ok outcome_lower =>
      let success := (["pass", "passed", "success"] : List String).contains outcome_lower
      let result_type : AssertionResultType := if success then .SUCCESS else .FAILURE
      match pyIter metrics with
      | .error e => .error e
      | .ok ms =>
        match processMetrics ms MetricAcc.init with
        | .error e => .error e
        | .ok acc =>
          let assertion_fields := assertionFieldsOf dataset_urn column_name
          let assertion_urn := makeAssertionUrn (datahub_guid
            (guidTupleOfCheck check_type definition dataset_urn assertion_fields check_name))
          match buildAssertionInfo check_type definition dataset_urn assertion_fields check_name with
          | .error e => .error e
          | .ok assertion_info =>
            let batch_spec : BatchSpec :=
              { nativeBatchId := scan_id
                query := if definition.truthy then definition else .str ""
                customProperties :=
                  [("check_name", check_name), ("check_type", check_type),
                   ("soda_scan_id", scan_id)] }
            let assertion_result : AssertionRunEvent :=
              { timestampMillis := now_ms
                assertionUrn := assertion_urn
                asserteeUrn := dataset_urn
                runId := run_id
                result :=
                  { resultType := result_type
                    rowCount := acc.row_count
                    missingCount := acc.missing_count
                    unexpectedCount := acc.unexpected_count
                    actualAggValue := acc.actual_agg_value
                    nativeResults := nativeResultsOf chd }
                batchSpec := batch_spec
                status := "COMPLETE" }
            .ok (assertion_info, assertion_result)

/-- Embedding of `_convert_check_to_assertion` (handler.py lines 293-416): the
try/except wrapper around `convertBody` — any raised exception is caught, a
warning is logged, and `(None, None)` is returned. -/
def convertCheckToAssertion (check : PyVal) (dataset_urn : String) (scan_id : PyVal)
    (run_id : String) (now_ms : Nat) :
    Option AssertionInfo × Option AssertionRunEvent :=
  match convertBody check dataset_urn scan_id run_id now_ms with
  | .ok p => (some p.1, some p.2)
  | .error _ => (none, none)

/-! Embedding of `DataHubSodaHandler.process_scan_result`
(handler.py lines 104-231).  The external REST emitter is modelled as an
event log plus a call counter; an injectable failure predicate on the call
index models `emit_mcp` raising. -/

/-- One `emit_mcp` call: each is keyed by an entity urn and carries the
aspect (handler.py lines 190-214). -/
inductive EmitEvent where
  | info (entityUrn : String) (aspect : AssertionInfo)
  | platformInstance (entityUrn : String) (platform : String)
  | runEvent (entityUrn : String) (aspect : AssertionRunEvent)

/-- State of the modelled emitter plus the `assertions_sent` counter. -/
structure EmitState where
  calls : Nat
  log : List EmitEvent
  sent : Nat

/-- Initial emitter state. -/
def EmitState.init : EmitState := ⟨0, [], 0⟩

/-- One `emit_mcp` call: if the failure predicate marks this call index the
call raises (the attempt is counted, nothing is logged), otherwise the event
is appended. -/
def emitOne (ef : Nat → Bool) (st : EmitState) (ev : EmitEvent) :
    EmitState × Except String Unit :=
  if ef st.calls then
    ({ st with calls := st.calls + 1 }, .error "emit_mcp failed")
  else
    ({ st with calls := st.calls + 1, log := st.log ++ [ev] }, .ok ())

/-- The emit block for one converted check (handler.py lines 190-216): three
`emit_mcp` calls keyed by `assertion_result.assertionUrn` — assertion info,
then the platform instance aspect for platform "soda", then the assertion run
event — followed by `assertions_sent += 1`.  A raise from any call aborts the
block before the counter update. -/
def emitTriple (ef : Nat → Bool) (st : EmitState) (u : String)
    (assertion_info : AssertionInfo) (assertion_result : AssertionRunEvent) :
    EmitState × Except String Unit :=
  match emitOne ef st (.info u assertion_info) with
  | (st1, .error e) => (st1, .error e)
  | (st1, .ok _) =>
    match emitOne ef st1 (.platformInstance u (makeDataPlatformUrn "soda")) with
    | (st2, .error e) => (st2, .error e)
    | (st2, .ok _) =>
      match emitOne ef st2 (.runEvent u assertion_result) with
      | (st3, .error e) => (st3, .error e)
      | (st3, .ok _) => ({ st3 with sent := st3.sent + 1 }, .ok ())

/-- The check loop of one table (handler.py lines 182-216): each selected
check is converted; the `(None, None)` outcome skips the check, a converted
pair is emitted as a triple. -/
def processChecks (ef : Nat → Bool) (sel : List PyVal) (dataset_urn : String)
    (scan_id : PyVal) (run_id : String) (now_ms : Nat) (st : EmitState) :
    EmitState × Except String Unit :=
  match sel with
  | [] => (st, .ok ())
  | c :: rest =>
    match convertCheckToAssertion c dataset_urn scan_id run_id now_ms with
    | (some assertion_info, some assertion_result) =>
      match emitTriple ef st assertion_result.assertionUrn assertion_info assertion_result with
      | (st1, .error e) => (st1, .error e)
      | (st1, .ok _) => processChecks ef rest dataset_urn scan_id run_id now_ms st1
    | _ => processChecks ef rest dataset_urn scan_id run_id now_ms st

/-- The check selection of one table (handler.py lines 175-180):
`c.get("table") == table_name and c.get("schema") == schema_name`, exact
Python equality with no normalization; `c.get` raises on a non-dict check. -/
def selectChecks (checks : List PyVal) (table_name schema_name : PyVal) :
    Except String (List PyVal) :=
  match checks with
  | [] => .ok []
  | c :: rest =>
    match c with
    | .dict cd =>
      let keep := pyEq (pyDictGet cd "table") table_name
        && pyEq (pyDictGet cd "schema") schema_name
      match selectChecks rest table_name schema_name with
      | .error e => .error e
      | .ok l => .ok (if keep then c :: l else l)
    | _ => .error "AttributeError: object has no attribute get"

/-- Platform-instance lookup `self.platform_instance_map.get(dsn, None)`
(handler.py lines 153-155): the map is string-keyed, an unhashable key
raises `TypeError`, any other non-string key simply finds nothing. -/
def platformInstanceGet (m : List (String × String)) (data_source_name : PyVal) :
    Except String (Option String) :=
  match data_source_name with
  | .list _ => .error "TypeError: unhashable type"
  | .dict _ => .error "TypeError: unhashable type"
  | .str s => .ok ((m.find? (fun kv => kv.1 == s)).map (fun kv => kv.2))
  | _ => .ok none

/-- The body of one table iteration (handler.py lines 147-216): extract the
table names, resolve the platform instance, build the dataset urn (a `None`
or falsy urn skips the table with a warning), select the matching checks and
run the check loop. -/
def processTable (cfg : HandlerConfig) (ef : Nat → Bool) (data_source_name checks scan_id : PyVal)
    (run_id : String) (now_ms : Nat) (table_info : PyVal) (st : EmitState) :
    EmitState × Except String Unit :=
  match asDict table_info with
  | .error e => (st, .error e)
  | .ok td =>
    let table_name := pyDictGetD td "tableName" (.str "")
    let schema_name := pyDictGetD td "schemaName" (.str "")
    let database_name := pyDictGetD td "databaseName" (.str "")
    match platformInstanceGet cfg.platform_instance_map data_source_name with
    | .error e => (st, .error e)
    | .ok platform_instance =>
      match buildDatasetUrn cfg data_source_name database_name schema_name table_name platform_instance with
      | .error e => (st, .error e)
      | .ok none => (st, .ok ())
      | .ok (some dataset_urn) =>
        if dataset_urn = "" then (st, .ok ())
        else
          match pyIter checks with
          | .error e => (st, .error e)
          | .ok cl =>
            match selectChecks cl table_name schema_name with
            | .error e => (st, .error e)
            | .ok sel => processChecks ef sel dataset_urn scan_id run_id now_ms st

/-- The table loop (handler.py lines 147-216). -/
def processTables (cfg : HandlerConfig) (ef : Nat → Bool) (data_source_name checks scan_id : PyVal)
    (run_id : String) (now_ms : Nat) (tables : List PyVal) (st : EmitState) :
    EmitState × Except String Unit :=
  match tables with
  | [] => (st, .ok ())
  | t :: rest =>
    match processTable cfg ef data_source_name checks scan_id run_id now_ms t st with
    | (st1, .error e) => (st1, .error e)
    | (st1, .ok _) => processTables cfg ef data_source_name checks scan_id run_id now_ms rest st1

/-- The try-block body of `process_scan_result` (handler.py lines 122-223):
scan metadata extraction with defaults (`scan_id` falls back to a
timestamp-derived string), the table loop, and the success dictionary.
`run_id` is the strftime-rendered scan timestamp, `now_ms` the current epoch
milliseconds and `now_s` the current epoch seconds, all passed as explicit
parameters in the model. -/
def processCore (cfg : HandlerConfig) (ef : Nat → Bool) (scan_result : PyVal)
    (run_id : String) (now_ms now_s : Nat) : EmitState × Except String PyVal :=
  match asDict scan_result with
  | .error e => (EmitState.init, .error e)
  | .ok scd =>
    let scan_id := pyDictGetD scd "scanId" (.str ("scan_" ++ toString now_s))
    let data_source_name := pyDictGetD scd "dataSourceName" (.str "unknown")
    let checks := pyDictGetD scd "checks" (.list [])
    let tables := pyDictGetD scd "tables" (.list [])
    match pyIter tables with
    | .error e => (EmitState.init, .error e)
    | .ok tl =>
      match processTables cfg ef data_source_name checks scan_id run_id now_ms tl EmitState.init with
      | (st, .error e) => (st, .error e)
      | (st, .ok _) =>
        (st, .ok (.dict
          [("status", .str "success"),
           ("assertions_sent", .int (st.sent : Int)),
           ("scan_id", scan_id)]))

/-- The structured error dictionary of the graceful path
(handler.py lines 226-229). -/
def processErrorDict (e : String) : PyVal :=
  .dict [("status", .str "error"),
         ("error", .str ("Failed to process Soda scan result: " ++ e))]

/-- Embedding of `process_scan_result` (handler.py lines 104-231): the
top-level try/except — on an exception, graceful mode returns the structured
error dictionary, strict mode re-raises the same exception. -/
def processScanResult (cfg : HandlerConfig) (ef : Nat → Bool) (scan_result : PyVal)
    (run_id : String) (now_ms now_s : Nat) : Except String PyVal :=
  match processCore cfg ef scan_result run_id now_ms now_s with
  | (_, .ok res) => .ok res
  | (_, .error e) =>
    if cfg.graceful_exceptions then .ok (processErrorDict e)
    else .error e

/-! Embedding of `DataHubSodaHandler.validate_governance_policies`
(handler.py lines 492-544). -/

/-- Python `len(v)`: defined for strings, lists and dicts, raises `TypeError`
otherwise. -/
def pyLen : PyVal → Except String Nat
  | .str s => .ok s.length
  | .list l => .ok l.length
  | .dict d => .ok d.length
  | _ => .error "TypeError: object has no len"

/-- One detail entry of the policy loop (handler.py lines 531-542): name and
type are read with defaults and the status is the constant "validated". -/
def policyDetail (pd : List (String × PyVal)) : PyVal :=
  .dict [("policy", pyDictGetD pd "name" (.str "unknown")),
         ("type", pyDictGetD pd "type" (.str "unknown")),
         ("status", .str "validated")]

/-- The policy loop (handler.py lines 531-542): `policy.get` raises on a
non-dict entry. -/
def policyDetails : List PyVal → Except String (List PyVal)
  | [] => .ok []
  | p :: rest =>
    match p with
    | .dict pd =>
      match policyDetails rest with
      | .error e => .error e
      | .ok l => .ok (policyDetail pd :: l)
    | _ => .error "AttributeError: object has no attribute get"

/-- Embedding of `validate_governance_policies` (handler.py lines 492-544):
the result dictionary is created with `policies_validated = len(policies)` and
zero `compliant`/`non_compliant` counters, then one "validated" detail entry
is appended per policy; the `scan_result` argument is never read. -/
def validateGovernancePolicies (dataset_urn : String) (policies : PyVal)
    (scan_result : PyVal) : Except String PyVal :=
  match pyLen policies with
  | .error e => .error e
  | .ok n =>
    match pyIter policies with
    | .error e => .error e
    | .ok ps =>
      match policyDetails ps with
      | .error e => .error e
      | .ok details =>
        .ok (.dict
          [("dataset_urn", .str dataset_urn),
           ("policies_validated", .int (n : Int)),
           ("compliant", .int 0),
           ("non_compliant", .int 0),
           ("details", .list details)])

/-! Reference definitions written from the claims, to be compared with the
embedded code. -/

/-- Whether a Python value is a dict. -/
def PyVal.isDict : PyVal → Bool
  | .dict _ => true
  | _ => false

/-- The aggregation value a single metric entry contributes: the metric's
value when its id is one of `min`/`max`/`avg`/`sum`/`count` and the value is
numeric, otherwise nothing.  Non-dict entries contribute nothing (they abort
the conversion entirely, so they never reach an outcome). -/
def aggValOf (m : PyVal) : Option PyVal :=
  match m with
  | .dict md =>
    let metric_id := pyDictGetD md "id" (.str "")
    let metric_value := pyDictGet md "value"
    if aggMetricIds.any (fun s => pyEq metric_id (.str s)) && metric_value.isNumeric then
      some metric_value
    else none
  | _ => none

/-- Claim C1 as stated: the value of the FIRST matching numeric aggregation
metric in list order. -/
def specFirstAggValue (ms : List PyVal) : Option PyVal :=
  ms.findSome? aggValOf

/-- The amended reading of claim C1: the value of the LAST matching numeric
aggregation metric in list order (each match overwrites the slot). -/
def specLastAggValue (ms : List PyVal) : Option PyVal :=
  ms.foldl (fun a m => match aggValOf m with | some v => some v | none => a) none

/-- Claim C3's rule list, written from the spec wording: lower-cased substring
rules in priority order, first match wins, with column-scoping decided by
whether the field list is present (truthy). -/
def specClassifyCheckType (check_lower : String) (hasFields : Bool) :
    DatasetAssertionScope × AssertionStdOperator × AssertionStdAggregation :=
  if pyIn "null" check_lower || pyIn "missing" check_lower then
    ((if hasFields then .DATASET_COLUMN else .DATASET_ROWS), .NOT_NULL, .IDENTITY)
  else if pyIn "unique" check_lower then
    ((if hasFields then .DATASET_COLUMN else .DATASET_ROWS), .NATIVE, .UNIQUE_COUNT)
  else if pyIn "row_count" check_lower || pyIn "count" check_lower then
    (.DATASET_ROWS, .NATIVE, .ROW_COUNT)
  else if pyIn "schema" check_lower then
    (.DATASET_SCHEMA, .NATIVE, .COLUMNS)
  else if hasFields then
    (.DATASET_COLUMN, .NATIVE, .NATIVE)
  else
    (.DATASET_ROWS, .NATIVE, .NATIVE)

/-- Claim C4's join predicate between a check dict and a table dict: exact
Python equality of the check's `table`/`schema` fields against the table's
`tableName`/`schemaName` fields. -/
def checkMatchesTable (cd td : List (String × PyVal)) : Bool :=
  pyEq (pyDictGet cd "table") (pyDictGetD td "tableName" (.str ""))
    && pyEq (pyDictGet cd "schema") (pyDictGetD td "schemaName" (.str ""))

/-- Claim C6's dataset-name composition on string inputs:
`database.schema.table` when database and schema are both non-empty,
`schema.table` when only the schema is non-empty, else the table alone. -/
def specComposeName (db sc tb : String) : String :=
  if !(db == "") && !(sc == "") then db ++ "." ++ sc ++ "." ++ tb
  else if !(sc == "") then sc ++ "." ++ tb
  else tb

/-- The three emit events of one fully emitted assertion, in claim C9's
required order: definition fact, platform-binding fact for platform "soda",
outcome fact, all keyed by the same assertion identifier. -/
def tripleEvents (u : String) (i : AssertionInfo) (r : AssertionRunEvent) :
    List EmitEvent :=
  [.info u i, .platformInstance u (makeDataPlatformUrn "soda"), .runEvent u r]

/-- A successfully finished emitter state: the log is a concatenation of
complete ordered triples, one per counted assertion, each keyed throughout by
the run event's own assertion urn. -/
def EmitLogComplete (st : EmitState) : Prop :=
  ∃ ts : List (String × AssertionInfo × AssertionRunEvent),
    st.log = ts.flatMap (fun t => tripleEvents t.1 t.2.1 t.2.2)
      ∧ st.sent = ts.length
      ∧ ∀ t ∈ ts, t.2.2.assertionUrn = t.1

/-- An emitter state after an aborted run: complete counted triples followed
by a proper prefix (fewer than three events) of one more triple that was never
counted. -/
def EmitLogAborted (st : EmitState) : Prop :=
  ∃ (ts : List (String × AssertionInfo × AssertionRunEvent)) (k : Nat)
    (u : String) (i : AssertionInfo) (r : AssertionRunEvent),
    st.log = ts.flatMap (fun t => tripleEvents t.1 t.2.1 t.2.2)
        ++ (tripleEvents u i r).take k
      ∧ st.sent = ts.length
      ∧ (∀ t ∈ ts, t.2.2.assertionUrn = t.1)
      ∧ k < 3 ∧ r.assertionUrn = u

/-- Claim C9's invariant over the outcome of `processCore`: a successful call
leaves a complete log, an aborted call leaves complete counted triples plus an
uncounted proper prefix. -/
def coreEmitInvariant (out : EmitState × Except String PyVal) : Prop :=
  match out.2 with
  | .ok _ => EmitLogComplete out.1
  | .error _ => EmitLogAborted out.1

/-! Helper lemmas. -/

/-- Python equality against a string is string equality: no non-string value
compares equal to a string. -/
theorem pyEq_str_iff (v : PyVal) (a : String) : pyEq v (.str a) = true ↔ v = .str a := by
  constructor
  · intro h
    cases v <;> simp [pyEq, PyVal.numVal?] at h
    exact congrArg PyVal.str h
  · intro h
    subst h
    simp [pyEq]

theorem metricStep_agg (acc : MetricAcc) (md : List (String × PyVal)) :
    (metricStep acc md).actual_agg_value =
      (match aggValOf (.dict md) with
       | some v => some v
       | none => acc.actual_agg_value) := by
  unfold metricStep aggValOf
  cases hmid : pyDictGetD md "id" (PyVal.str "") with
  | str s =>
    simp only [pyEq, aggMetricIds, List.any_cons, List.any_nil, Bool.or_false,
      beq_iff_eq]
    split_ifs <;> simp_all [pyEq]
  | pynone => simp [hmid, pyEq, PyVal.numVal?, aggMetricIds]
  | int n => simp [hmid, pyEq, PyVal.numVal?, aggMetricIds]
  | float q => simp [hmid, pyEq, PyVal.numVal?, aggMetricIds]
  | bool b => simp [hmid, pyEq, PyVal.numVal?, aggMetricIds]
  | list l => simp [hmid, pyEq, PyVal.numVal?, aggMetricIds]
  | dict d => simp [hmid, pyEq, PyVal.numVal?, aggMetricIds]

theorem processMetrics_agg (ms : List PyVal) (acc acc2 : MetricAcc)
    (h : processMetrics ms acc = .ok acc2) :
    acc2.actual_agg_value =
      ms.foldl (fun a m => match aggValOf m with | some v => some v | none => a)
        acc.actual_agg_value := by
  induction ms generalizing acc with
  | nil =>
    simp only [processMetrics, Except.ok.injEq] at h
    subst h
    rfl
  | cons m rest ih =>
    cases m with
    | dict md =>
      simp only [processMetrics] at h
      have := ih (metricStep acc md) h
      rw [this, List.foldl_cons, metricStep_agg]
    | pynone => simp [processMetrics] at h
    | str s => simp [processMetrics] at h
    | int n => simp [processMetrics] at h
    | float q => simp [processMetrics] at h
    | bool b => simp [processMetrics] at h
    | list l => simp [processMetrics] at h

theorem convertBody_ok_proj (chd : List (String × PyVal)) (urn : String)
    (sid : PyVal) (rid : String) (now : Nat) (p : AssertionInfo × AssertionRunEvent)
    (h : convertBody (.dict chd) urn sid rid now = .ok p) :
    ∃ outcome_lower ms acc,
      pyLower (pyDictGetD chd "outcome" (.str "unknown")) = .ok outcome_lower
      ∧ pyIter (pyDictGetD chd "metrics" (.list [])) = .ok ms
      ∧ processMetrics ms MetricAcc.init = .ok acc
      ∧ buildAssertionInfo (pyDictGetD chd "type" (.str "unknown"))
          (pyDictGetD chd "definition" (.str "")) urn
          (assertionFieldsOf urn (pyDictGetD chd "column" .pynone))
          (pyDictGetD chd "name" (.str "unknown_check")) = .ok p.1
      ∧ p.2.result.resultType =
          (if (["pass", "passed", "success"] : List String).contains outcome_lower
           then AssertionResultType.SUCCESS else AssertionResultType.FAILURE)
      ∧ p.2.result.actualAggValue = acc.actual_agg_value
      ∧ p.2.assertionUrn = makeAssertionUrn (datahub_guid
          (guidTupleOfCheck (pyDictGetD chd "type" (.str "unknown"))
            (pyDictGetD chd "definition" (.str "")) urn
            (assertionFieldsOf urn (pyDictGetD chd "column" .pynone))
            (pyDictGetD chd "name" (.str "unknown_check")))) := by
  simp only [convertBody, asDict] at h
  split at h
  · exact absurd h (by simp)
  · split at h
    · exact absurd h (by simp)
    · split at h
      · exact absurd h (by simp)
      · split at h
        · exact absurd h (by simp)
        · rename_i xa ol hl xb ms hi xc acc hm xd info hb
          simp only [Except.ok.injEq] at h
          subst h
          exact ⟨ol, ms, acc, hl, hi, hm, hb, rfl, rfl, rfl⟩

/-- Inversion of a successful `pyLower`: the input was a string and the output
its lower-casing. -/
theorem pyLower_ok (v : PyVal) (l : String) (h : pyLower v = .ok l) :
    ∃ s, v = .str s ∧ l = pyToLower s := by
  cases v <;> simp [pyLower] at h
  exact ⟨_, rfl, h.symm⟩

/-- C1 (corrected): a check reporting the numeric aggregation metrics
`min = 1` then `max = 2` is converted with `actual_agg_value = 2`, the value
of the LAST matching metric, while the claim's "first wins" reading demands
`1`: the unconditional assignment at handler.py line 345 lets later matching
metrics overwrite earlier ones. -/
theorem mapCheck_agg_first_wins_cex :
    ((convertCheckToAssertion
        (.dict [("outcome", .str "pass"),
                ("metrics", .list
                  [.dict [("id", .str "min"), ("value", .int 1)],
                   .dict [("id", .str "max"), ("value", .int 2)]])])
        "urn:li:dataset:(urn:li:dataPlatform:postgres,db.public.users,PROD)"
        (.str "scan1") "2024-01-01T00:00:00Z" 0).2.map
      (fun r => r.result.actualAggValue)) = some (some (.int 2))
    ∧ specFirstAggValue
        [.dict [("id", .str "min"), ("value", .int 1)],
         .dict [("id", .str "max"), ("value", .int 2)]] = some (.int 1)
    ∧ some (some (PyVal.int 2)) ≠ some (some (PyVal.int 1)) := by
  refine ⟨rfl, rfl, ?_⟩
  simp

/-- C1 (amended): for every check dict whose `metrics` entry is the list `ms`
and that converts successfully, the outcome's `actual_agg_value` is the value
of the LAST metric in list order whose id is in `min`/`max`/`avg`/`sum`/`count`
and whose value is numeric — each later matching numeric metric overwrites the
earlier one. -/
theorem mapCheck_actualAggValue_last_wins (chd : List (String × PyVal))
    (urn : String) (sid : PyVal) (rid : String) (now : Nat) (ms : List PyVal)
    (hms : pyDictGetD chd "metrics" (.list []) = .list ms)
    (hs : ((convertCheckToAssertion (.dict chd) urn sid rid now).2).isSome = true) :
    (convertCheckToAssertion (.dict chd) urn sid rid now).2.map
      (fun r => r.result.actualAggValue) = some (specLastAggValue ms) := by
  unfold convertCheckToAssertion at hs ⊢
  cases hb : convertBody (.dict chd) urn sid rid now with
  | error e => rw [hb] at hs; simp at hs
  | ok p =>
    obtain ⟨ol, ms2, acc, hl, hi, hm, hbi, hrt, hagg, hurn⟩ :=
      convertBody_ok_proj chd urn sid rid now p hb
    rw [hms] at hi
    simp only [pyIter, Except.ok.injEq] at hi
    subst hi
    have hfold := processMetrics_agg _ MetricAcc.init acc hm
    simp only [Option.map, hagg, hfold]
    rfl

/-- Witness for C1's amended theorem: a concrete check with two matching
numeric aggregation metrics, evaluated through the theorem. -/
theorem mapCheck_actualAggValue_last_wins_witness :
    (convertCheckToAssertion
        (.dict [("outcome", .str "fail"),
                ("metrics", .list
                  [.dict [("id", .str "sum"), ("value", .int 10)],
                   .dict [("id", .str "avg"), ("value", .float (5 : Rat))]])])
        "urn:li:dataset:(urn:li:dataPlatform:postgres,db.public.users,PROD)"
        (.str "scan2") "2024-01-01T00:00:00Z" 0).2.map
      (fun r => r.result.actualAggValue)
      = some (specLastAggValue
          [.dict [("id", .str "sum"), ("value", .int 10)],
           .dict [("id", .str "avg"), ("value", .float (5 : Rat))]]) :=
  mapCheck_actualAggValue_last_wins _ _ _ _ _ _ rfl rfl

/-- C2 (confirmed): for every check dict that converts successfully, the
outcome value was a string `s` (the default "unknown" when the field is
absent) and the produced result type is SUCCESS exactly when the lower-cased
`s` is one of `pass`/`passed`/`success`, FAILURE for every other string
including the empty string and the absent-field default. -/
theorem mapCheck_result_type_success_iff (chd : List (String × PyVal))
    (urn : String) (sid : PyVal) (rid : String) (now : Nat)
    (hs : ((convertCheckToAssertion (.dict chd) urn sid rid now).2).isSome = true) :
    ∃ s, pyDictGetD chd "outcome" (.str "unknown") = .str s
      ∧ (convertCheckToAssertion (.dict chd) urn sid rid now).2.map
          (fun r => r.result.resultType)
        = some (if (["pass", "passed", "success"] : List String).contains (pyToLower s)
                then AssertionResultType.SUCCESS else AssertionResultType.FAILURE) := by
  unfold convertCheckToAssertion at hs ⊢
  cases hb : convertBody (.dict chd) urn sid rid now with
  | error e => rw [hb] at hs; simp at hs
  | ok p =>
    obtain ⟨ol, ms2, acc, hl, hi, hm, hbi, hrt, hagg, hurn⟩ :=
      convertBody_ok_proj chd urn sid rid now p hb
    obtain ⟨s, hvs, hls⟩ := pyLower_ok _ _ hl
    refine ⟨s, hvs, ?_⟩
    simp only [Option.map, hrt, hls]

/-- Witness for C2: a check whose outcome is the mixed-case string "PASS"
converts to result type SUCCESS (through the theorem at that input). -/
theorem mapCheck_result_type_success_iff_witness :
    ∃ s, pyDictGetD [("outcome", PyVal.str "PASS")] "outcome" (.str "unknown") = .str s
      ∧ (convertCheckToAssertion (.dict [("outcome", .str "PASS")])
          "urn:li:dataset:(urn:li:dataPlatform:postgres,db.public.users,PROD)"
          (.str "scan3") "2024-01-01T00:00:00Z" 0).2.map
          (fun r => r.result.resultType)
        = some (if (["pass", "passed", "success"] : List String).contains (pyToLower s)
                then AssertionResultType.SUCCESS else AssertionResultType.FAILURE) :=
  mapCheck_result_type_success_iff _ _ _ _ _ rfl

/-- C7 (confirmed): `_convert_check_to_assertion` never propagates an
exception: whenever its try-block body raises, the wrapper returns
`(None, None)`, and a successful body yields the converted pair. -/
theorem mapCheck_never_propagates (check : PyVal) (urn : String) (sid : PyVal)
    (rid : String) (now : Nat) :
    (∀ e, convertBody check urn sid rid now = .error e →
        convertCheckToAssertion check urn sid rid now = (none, none))
    ∧ (∀ p, convertBody check urn sid rid now = .ok p →
        convertCheckToAssertion check urn sid rid now = (some p.1, some p.2)) := by
  constructor
  · intro e h
    simp [convertCheckToAssertion, h]
  · intro p h
    simp [convertCheckToAssertion, h]

/-- Witness for C7: a check whose outcome is an integer makes the body raise
`AttributeError` on `.lower()`, and the wrapper returns `(None, None)`. -/
theorem mapCheck_never_propagates_witness :
    convertBody (.dict [("outcome", .int 5)])
        "urn:li:dataset:(urn:li:dataPlatform:postgres,db.public.users,PROD)"
        (.str "scan4") "2024-01-01T00:00:00Z" 0
      = .error "AttributeError: object has no attribute lower"
    ∧ convertCheckToAssertion (.dict [("outcome", .int 5)])
        "urn:li:dataset:(urn:li:dataPlatform:postgres,db.public.users,PROD)"
        (.str "scan4") "2024-01-01T00:00:00Z" 0 = (none, none) :=
  ⟨rfl, (mapCheck_never_propagates _ _ _ _ _).1 _ rfl⟩

/-- The policy loop maps each dict policy to its detail entry. -/
theorem policyDetails_all_dict (ps : List PyVal) (hd : ps.all PyVal.isDict = true) :
    policyDetails ps = .ok (ps.map fun p =>
      match p with | .dict pd => policyDetail pd | _ => .pynone) := by
  induction ps with
  | nil => rfl
  | cons p rest ih =>
    rw [List.all_cons, Bool.and_eq_true] at hd
    cases p with
    | dict pd => simp only [policyDetails, ih hd.2, List.map_cons]
    | pynone => exact absurd hd.1 (by simp [PyVal.isDict])
    | str s => exact absurd hd.1 (by simp [PyVal.isDict])
    | int n => exact absurd hd.1 (by simp [PyVal.isDict])
    | float q => exact absurd hd.1 (by simp [PyVal.isDict])
    | bool b => exact absurd hd.1 (by simp [PyVal.isDict])
    | list l => exact absurd hd.1 (by simp [PyVal.isDict])

/-- C10 (confirmed): for every list of N dict policies and any scan-result
argument, `validate_governance_policies` returns `policies_validated = N`,
`compliant = 0`, `non_compliant = 0` and one detail entry per policy, each
with status "validated"; the result does not depend on the scan-result
argument. -/
theorem validate_governance_policies_stub (urn : String) (ps : List PyVal)
    (scan other : PyVal) (hd : ps.all PyVal.isDict = true) :
    validateGovernancePolicies urn (.list ps) scan
      = .ok (.dict
          [("dataset_urn", .str urn),
           ("policies_validated", .int (ps.length : Int)),
           ("compliant", .int 0),
           ("non_compliant", .int 0),
           ("details", .list (ps.map fun p =>
             match p with | .dict pd => policyDetail pd | _ => .pynone))])
    ∧ validateGovernancePolicies urn (.list ps) scan
        = validateGovernancePolicies urn (.list ps) other
    ∧ ∀ pd, policyDetail pd
        = .dict [("policy", pyDictGetD pd "name" (.str "unknown")),
                 ("type", pyDictGetD pd "type" (.str "unknown")),
                 ("status", .str "validated")] := by
  refine ⟨?_, rfl, fun pd => rfl⟩
  simp only [validateGovernancePolicies, pyLen, pyIter]
  rw [policyDetails_all_dict ps hd]

/-- Witness for C10: one concrete policy, validated through the theorem. -/
theorem validate_governance_policies_stub_witness :
    validateGovernancePolicies "urn:li:dataset:(urn:li:dataPlatform:postgres,db.public.users,PROD)"
        (.list [.dict [("name", .str "Data Quality Policy"), ("type", .str "data_quality")]])
        .pynone
      = .ok (.dict
          [("dataset_urn", .str "urn:li:dataset:(urn:li:dataPlatform:postgres,db.public.users,PROD)"),
           ("policies_validated", .int 1),
           ("compliant", .int 0),
           ("non_compliant", .int 0),
           ("details", .list
             [.dict [("policy", .str "Data Quality Policy"),
                     ("type", .str "data_quality"),
                     ("status", .str "validated")]])]) :=
  (validate_governance_policies_stub
    "urn:li:dataset:(urn:li:dataPlatform:postgres,db.public.users,PROD)"
    [.dict [("name", .str "Data Quality Policy"), ("type", .str "data_quality")]]
    .pynone (.int 7) rfl).1

/-- C3 (counterexample): a check whose type contains "unique" with a non-null
but empty-string column converts with scope DATASET_ROWS, not DATASET_COLUMN
as the claim states: `if column_name:` at handler.py line 349 treats the empty
string as absent, so no assertion fields are built and the unique branch
falls to its row-scoped arm. -/
theorem classify_unique_nonnull_column_cex :
    ((convertCheckToAssertion
        (.dict [("type", .str "unique"), ("outcome", .str "pass"), ("column", .str "")])
        "urn:li:dataset:(urn:li:dataPlatform:postgres,db.public.users,PROD)"
        (.str "scan5") "2024-01-01T00:00:00Z" 0).1.map
      (fun i => (i.datasetAssertion.scope, i.datasetAssertion.aggregation)))
      = some (.DATASET_ROWS, .UNIQUE_COUNT)
    ∧ DatasetAssertionScope.DATASET_ROWS ≠ DatasetAssertionScope.DATASET_COLUMN := by
  refine ⟨rfl, ?_⟩
  simp

/-- C3 (amended): the scope/operator/aggregation classification follows the
claim's lower-cased substring priority rules exactly, with "column present"
meaning a truthy field list (a truthy, in particular non-empty, column): the
classification of `_build_assertion_info` on a string check type equals the
spec-side rule list; at the check-mapper level a truthy column together with a
type containing "unique" yields that rule list's classification; and the rule
list sends "unique" types that do not also contain "null" or "missing" to
DATASET_COLUMN with aggregation UNIQUE_COUNT when a column is present. -/
theorem classify_check_type_rules :
    (∀ (t : String) (defn : PyVal) (urn : String) (fields : Option (List String)) (name : PyVal),
      (buildAssertionInfo (.str t) defn urn fields name).map
        (fun i => (i.datasetAssertion.scope, i.datasetAssertion.operator,
          i.datasetAssertion.aggregation))
        = .ok (specClassifyCheckType (pyToLower t) (fieldsTruthy fields)))
    ∧ (∀ (chd : List (String × PyVal)) (urn : String) (sid : PyVal) (rid : String)
        (now : Nat) (t : String),
        pyDictGetD chd "type" (.str "unknown") = .str t →
        (pyDictGetD chd "column" .pynone).truthy = true →
        ((convertCheckToAssertion (.dict chd) urn sid rid now).1).isSome = true →
        (convertCheckToAssertion (.dict chd) urn sid rid now).1.map
          (fun i => (i.datasetAssertion.scope, i.datasetAssertion.operator,
            i.datasetAssertion.aggregation))
          = some (specClassifyCheckType (pyToLower t) true))
    ∧ (∀ tl : String, pyIn "null" tl = false → pyIn "missing" tl = false →
        pyIn "unique" tl = true →
        specClassifyCheckType tl true
          = (.DATASET_COLUMN, .NATIVE, .UNIQUE_COUNT)) := by
  refine ⟨fun t defn urn fields name => rfl, ?_, ?_⟩
  · intro chd urn sid rid now t htype hcol hs
    unfold convertCheckToAssertion at hs ⊢
    cases hb : convertBody (.dict chd) urn sid rid now with
    | error e => rw [hb] at hs; simp at hs
    | ok p =>
      obtain ⟨ol, ms2, acc, hl, hi, hm, hbi, hrt, hagg, hurn⟩ :=
        convertBody_ok_proj chd urn sid rid now p hb
      rw [htype] at hbi
      have hfields : fieldsTruthy (assertionFieldsOf urn (pyDictGetD chd "column" .pynone)) = true := by
        simp [assertionFieldsOf, hcol, fieldsTruthy]
      simp only [buildAssertionInfo, pyLower, Except.ok.injEq] at hbi
      simp only [Option.map, ← hbi, hfields]
      rfl
  · intro tl h1 h2 h3
    simp [specClassifyCheckType, h1, h2, h3]

/-- Witness for C3's amended theorem: a "unique_check" type with a non-empty
column classifies as DATASET_COLUMN with aggregation UNIQUE_COUNT, obtained by
composing the theorem's mapper-level and rule-list conjuncts. -/
theorem classify_check_type_rules_witness :
    (convertCheckToAssertion
        (.dict [("type", .str "unique_check"), ("outcome", .str "pass"),
                ("column", .str "email")])
        "urn:li:dataset:(urn:li:dataPlatform:postgres,db.public.users,PROD)"
        (.str "scan6") "2024-01-01T00:00:00Z" 0).1.map
      (fun i => (i.datasetAssertion.scope, i.datasetAssertion.operator,
        i.datasetAssertion.aggregation))
      = some (.DATASET_COLUMN, .NATIVE, .UNIQUE_COUNT) := by
  have h := classify_check_type_rules
  have hmap := h.2.1 [("type", .str "unique_check"), ("outcome", .str "pass"),
    ("column", .str "email")]
    "urn:li:dataset:(urn:li:dataPlatform:postgres,db.public.users,PROD)"
    (.str "scan6") "2024-01-01T00:00:00Z" 0 "unique_check" rfl rfl rfl
  have hrule := h.2.2 (pyToLower "unique_check") (by decide) (by decide) (by decide)
  rw [hmap, hrule]

/-- Injectivity of the string encoding behind the modelled content hash. -/
theorem strEnc_inj (a b : String) (h : strEnc a = strEnc b) : a = b :=
  Encodable.encode_injective h

/-- Injectivity of the field-list encoding behind the modelled content hash. -/
theorem fieldsEnc_inj (a b : Option (List String)) (h : fieldsEnc a = fieldsEnc b) : a = b :=
  Encodable.encode_injective h

/-- Equal modelled guids come from equal tuple encodings. -/
theorem datahub_guid_enc_eq (t1 t2 : GuidTuple) (h : datahub_guid t1 = datahub_guid t2) :
    guidTupleEnc t1 = guidTupleEnc t2 := by
  unfold datahub_guid at h
  have hd := congrArg (fun s => s.data.length) h
  simpa using hd

/-- C5 (confirmed): the assertion identifier is a deterministic function of
the canonical tuple (platform "soda", check type, definition, dataset
identifier, field ids, check name): equal tuples give equal identifier
strings; changing the check name, the definition, or the fields component
changes the identifier; the tuple built by the check mapper carries platform
"soda"; and its fields component is null when the check has no (truthy)
column. -/
theorem build_assertion_id_canonical :
    (∀ t1 t2 : GuidTuple, t1 = t2 → datahub_guid t1 = datahub_guid t2)
    ∧ (∀ (t : GuidTuple) (s1 s2 : String), s1 ≠ s2 →
        datahub_guid { t with checkName := .str s1 }
          ≠ datahub_guid { t with checkName := .str s2 })
    ∧ (∀ (t : GuidTuple) (s1 s2 : String), s1 ≠ s2 →
        datahub_guid { t with definition := .str s1 }
          ≠ datahub_guid { t with definition := .str s2 })
    ∧ (∀ (t : GuidTuple) (f1 f2 : Option (List String)), f1 ≠ f2 →
        datahub_guid { t with fields := f1 }
          ≠ datahub_guid { t with fields := f2 })
    ∧ (∀ (ct defn : PyVal) (urn : String) (f : Option (List String)) (name : PyVal),
        (guidTupleOfCheck ct defn urn f name).platform = "soda")
    ∧ (∀ (urn : String) (col : PyVal), col.truthy = false →
        assertionFieldsOf urn col = none) := by
  refine ⟨fun t1 t2 h => congrArg datahub_guid h, ?_, ?_, ?_,
    fun ct defn urn f name => rfl, ?_⟩
  · intro t s1 s2 hne hg
    have henc := datahub_guid_enc_eq _ _ hg
    simp only [guidTupleEnc, Nat.pair_eq_pair, pyEncode] at henc
    exact hne (strEnc_inj _ _ henc.2.2.2.2.2.2)
  · intro t s1 s2 hne hg
    have henc := datahub_guid_enc_eq _ _ hg
    simp only [guidTupleEnc, Nat.pair_eq_pair, pyEncode] at henc
    exact hne (strEnc_inj _ _ henc.2.2.1.2)
  · intro t f1 f2 hne hg
    have henc := datahub_guid_enc_eq _ _ hg
    simp only [guidTupleEnc, Nat.pair_eq_pair] at henc
    exact hne (fieldsEnc_inj _ _ henc.2.2.2.2.1)
  · intro urn col hcol
    simp [assertionFieldsOf, hcol]

/-- Witness for C5: concrete identifier inequalities and a concrete
fields-null instance, all through the theorem. -/
theorem build_assertion_id_canonical_witness :
    datahub_guid
        { platform := "soda", nativeType := .str "row_count",
          definition := .str "d", dataset := "urn:x", fields := none,
          checkName := .str "check_a" }
      ≠ datahub_guid
        { platform := "soda", nativeType := .str "row_count",
          definition := .str "d", dataset := "urn:x", fields := none,
          checkName := .str "check_b" }
    ∧ datahub_guid
        { platform := "soda", nativeType := .str "row_count",
          definition := .str "d", dataset := "urn:x", fields := none,
          checkName := .str "c" }
      ≠ datahub_guid
        { platform := "soda", nativeType := .str "row_count",
          definition := .str "d2", dataset := "urn:x", fields := none,
          checkName := .str "c" }
    ∧ datahub_guid
        { platform := "soda", nativeType := .str "row_count",
          definition := .str "d", dataset := "urn:x", fields := none,
          checkName := .str "c" }
      ≠ datahub_guid
        { platform := "soda", nativeType := .str "row_count",
          definition := .str "d", dataset := "urn:x",
          fields := some ["urn:li:schemaField:(urn:x,id)"], checkName := .str "c" }
    ∧ assertionFieldsOf "urn:x" .pynone = none := by
  refine ⟨?_, ?_, ?_, ?_⟩
  · exact build_assertion_id_canonical.2.1
      { platform := "soda", nativeType := .str "row_count", definition := .str "d",
        dataset := "urn:x", fields := none, checkName := .str "check_a" }
      "check_a" "check_b" (by decide)
  · exact build_assertion_id_canonical.2.2.1
      { platform := "soda", nativeType := .str "row_count", definition := .str "d",
        dataset := "urn:x", fields := none, checkName := .str "c" }
      "d" "d2" (by decide)
  · exact build_assertion_id_canonical.2.2.2.1
      { platform := "soda", nativeType := .str "row_count", definition := .str "d",
        dataset := "urn:x", fields := none, checkName := .str "c" }
      none (some ["urn:li:schemaField:(urn:x,id)"]) (by simp)
  · exact build_assertion_id_canonical.2.2.2.2.2 "urn:x" .pynone rfl

/-- Platform resolution on a string data-source name never raises and yields
the alias when truthy, otherwise the lower-cased lookup. -/
theorem resolvePlatform_str (cfg : HandlerConfig) (dsn : String) :
    resolvePlatform cfg (.str dsn)
      = .ok (match cfg.platform_alias with
             | some a => if a = "" then platformMapGetD (pyToLower dsn) else a
             | none => platformMapGetD (pyToLower dsn)) := by
  cases ha : cfg.platform_alias with
  | none => simp [resolvePlatform, ha, pyLower, Except.map]
  | some a =>
    by_cases he : a = "" <;> simp [resolvePlatform, ha, pyLower, he, Except.map]

/-- Composition of string-valued database/schema/table matches the spec-side
preference order. -/
theorem composeDatasetName_str (db sc tb : String) :
    composeDatasetName (.str db) (.str sc) (.str tb) = .str (specComposeName db sc tb) := by
  by_cases hdb : db = "" <;> by_cases hsc : sc = "" <;>
    simp [composeDatasetName, specComposeName, PyVal.truthy, pyStr, hdb, hsc]

/-- C6 (confirmed): `_build_dataset_urn` is pure — its output depends only on
its arguments and the env/platform-alias/lowercase configuration fields; on
string inputs the dataset-name component is composed as
database.schema.table, schema.table, or table alone according to which parts
are non-empty; and the lowercase flag folds only that composed dataset-name
component, after composition, leaving the platform and the environment of the
identifier untouched. -/
theorem build_dataset_urn_pure_compose :
    (∀ cfg1 cfg2 : HandlerConfig, cfg1.env = cfg2.env →
      cfg1.platform_alias = cfg2.platform_alias →
      cfg1.convert_urns_to_lowercase = cfg2.convert_urns_to_lowercase →
      ∀ dsn db sc tb pi, buildDatasetUrn cfg1 dsn db sc tb pi
        = buildDatasetUrn cfg2 dsn db sc tb pi)
    ∧ (∀ db sc tb : String,
        composeDatasetName (.str db) (.str sc) (.str tb) = .str (specComposeName db sc tb))
    ∧ (∀ (cfg : HandlerConfig) (dsn db sc tb : String) (pi : Option String),
        ∃ platform, resolvePlatform cfg (.str dsn) = .ok platform
          ∧ buildDatasetUrn { cfg with convert_urns_to_lowercase := true }
              (.str dsn) (.str db) (.str sc) (.str tb) pi
            = .ok (some (makeDatasetUrnWithPlatformInstance platform
                (pyToLower (specComposeName db sc tb)) (pi.getD "") cfg.env))
          ∧ buildDatasetUrn { cfg with convert_urns_to_lowercase := false }
              (.str dsn) (.str db) (.str sc) (.str tb) pi
            = .ok (some (makeDatasetUrnWithPlatformInstance platform
                (specComposeName db sc tb) (pi.getD "") cfg.env))) := by
  refine ⟨?_, composeDatasetName_str, ?_⟩
  · intro cfg1 cfg2 h1 h2 h3 dsn db sc tb pi
    simp only [buildDatasetUrn, resolvePlatform, h1, h2, h3]
  · intro cfg dsn db sc tb pi
    refine ⟨_, resolvePlatform_str cfg dsn, ?_, ?_⟩
    · simp [buildDatasetUrn, resolvePlatform_str, composeDatasetName_str, pyLower,
        Except.map]
    · simp [buildDatasetUrn, resolvePlatform_str, composeDatasetName_str, pyLower,
        Except.map]

/-- Witness for C6: concrete instantiations of the purity and
lowercase-composition conjuncts of the theorem. -/
theorem build_dataset_urn_pure_compose_witness :
    buildDatasetUrn
        { env := "PROD", platform_alias := none, platform_instance_map := [],
          graceful_exceptions := true, convert_urns_to_lowercase := false }
        (.str "postgres") (.str "MyDb") (.str "Public") (.str "Users") none
      = buildDatasetUrn
        { env := "PROD", platform_alias := none, platform_instance_map := [("x", "y")],
          graceful_exceptions := false, convert_urns_to_lowercase := false }
        (.str "postgres") (.str "MyDb") (.str "Public") (.str "Users") none
    ∧ ∃ platform,
      resolvePlatform
          { env := "PROD", platform_alias := none, platform_instance_map := [],
            graceful_exceptions := true, convert_urns_to_lowercase := false }
          (.str "postgres") = .ok platform
      ∧ buildDatasetUrn
          { env := "PROD", platform_alias := none, platform_instance_map := [],
            graceful_exceptions := true, convert_urns_to_lowercase := true }
          (.str "postgres") (.str "MyDb") (.str "Public") (.str "Users") none
        = .ok (some (makeDatasetUrnWithPlatformInstance platform
            (pyToLower (specComposeName "MyDb" "Public" "Users")) "" "PROD"))
      ∧ buildDatasetUrn
          { env := "PROD", platform_alias := none, platform_instance_map := [],
            graceful_exceptions := true, convert_urns_to_lowercase := false }
          (.str "postgres") (.str "MyDb") (.str "Public") (.str "Users") none
        = .ok (some (makeDatasetUrnWithPlatformInstance platform
            (specComposeName "MyDb" "Public" "Users") "" "PROD")) :=
  ⟨build_dataset_urn_pure_compose.1
      { env := "PROD", platform_alias := none, platform_instance_map := [],
        graceful_exceptions := true, convert_urns_to_lowercase := false }
      { env := "PROD", platform_alias := none, platform_instance_map := [("x", "y")],
        graceful_exceptions := false, convert_urns_to_lowercase := false }
      rfl rfl rfl (.str "postgres") (.str "MyDb") (.str "Public") (.str "Users") none,
    build_dataset_urn_pure_compose.2.2
      { env := "PROD", platform_alias := none, platform_instance_map := [],
        graceful_exceptions := true, convert_urns_to_lowercase := false }
      "postgres" "MyDb" "Public" "Users" none⟩

/-- C8 (confirmed): the top-level exception policy of `process_scan_result` —
whenever the try-block body raises, a handler constructed with
graceful_exceptions = true returns the structured error dictionary and raises
nothing, while graceful_exceptions = false re-raises the same exception; a
successful body is returned as-is. -/
theorem process_scan_result_error_policy (cfg : HandlerConfig) (ef : Nat → Bool)
    (scan : PyVal) (rid : String) (nms ns : Nat) :
    (∀ e, (processCore cfg ef scan rid nms ns).2 = .error e →
      processScanResult cfg ef scan rid nms ns
        = (if cfg.graceful_exceptions then .ok (processErrorDict e) else .error e))
    ∧ (∀ r, (processCore cfg ef scan rid nms ns).2 = .ok r →
      processScanResult cfg ef scan rid nms ns = .ok r) := by
  constructor
  · intro e h
    unfold processScanResult
    cases hq : processCore cfg ef scan rid nms ns with
    | mk st ex =>
      rw [hq] at h
      simp only at h
      subst h
      rfl
  · intro r h
    unfold processScanResult
    cases hq : processCore cfg ef scan rid nms ns with
    | mk st ex =>
      rw [hq] at h
      simp only at h
      subst h
      rfl

/-- Witness for C8: a non-dict scan result raises `AttributeError` in the
body; the graceful handler returns the structured error dictionary, the
strict handler re-raises, both through the theorem. -/
theorem process_scan_result_error_policy_witness :
    processScanResult
        { env := "PROD", platform_alias := none, platform_instance_map := [],
          graceful_exceptions := true, convert_urns_to_lowercase := false }
        (fun _ => false) (.int 0) "2024-01-01T00:00:00Z" 0 0
      = .ok (processErrorDict "AttributeError: object has no attribute get")
    ∧ processScanResult
        { env := "PROD", platform_alias := none, platform_instance_map := [],
          graceful_exceptions := false, convert_urns_to_lowercase := false }
        (fun _ => false) (.int 0) "2024-01-01T00:00:00Z" 0 0
      = .error "AttributeError: object has no attribute get" :=
  ⟨(process_scan_result_error_policy
      { env := "PROD", platform_alias := none, platform_instance_map := [],
        graceful_exceptions := true, convert_urns_to_lowercase := false }
      (fun _ => false) (.int 0) "2024-01-01T00:00:00Z" 0 0).1
      "AttributeError: object has no attribute get" rfl,
    (process_scan_result_error_policy
      { env := "PROD", platform_alias := none, platform_instance_map := [],
        graceful_exceptions := false, convert_urns_to_lowercase := false }
      (fun _ => false) (.int 0) "2024-01-01T00:00:00Z" 0 0).1
      "AttributeError: object has no attribute get" rfl⟩

/-- The empty emitter state is a complete log. -/
theorem emitLogComplete_init : EmitLogComplete EmitState.init :=
  ⟨[], rfl, rfl, by intro t ht; cases ht⟩

/-- A complete log is in particular an aborted log with an empty leftover. -/
theorem EmitLogComplete.toAborted (st : EmitState) (h : EmitLogComplete st) :
    EmitLogAborted st := by
  obtain ⟨ts, hlog, hsent, hurn⟩ := h
  refine ⟨ts, 0, "",
    ⟨"", ⟨"", none, .NATIVE, .NATIVE, .pynone, [], .DATASET_ROWS⟩, []⟩,
    ⟨0, "", "", "", ⟨.FAILURE, none, none, none, none, []⟩, ⟨.pynone, .pynone, []⟩, ""⟩,
    ?_, hsent, hurn, by decide, rfl⟩
  simpa using hlog

/-- Full characterization of the per-check emit block: on success it appends
exactly the ordered triple and increments the counter once; on failure it
appends a proper prefix of the triple (fewer than three events) and leaves the
counter untouched. -/
theorem emitTriple_spec (ef : Nat → Bool) (st : EmitState) (u : String)
    (i : AssertionInfo) (r : AssertionRunEvent) :
    (∀ v, emitTriple ef st u i r = (v, .ok ()) →
      v.log = st.log ++ tripleEvents u i r ∧ v.sent = st.sent + 1
        ∧ v.calls = st.calls + 3)
    ∧ (∀ v e, emitTriple ef st u i r = (v, .error e) →
      ∃ k, k < 3 ∧ v.log = st.log ++ (tripleEvents u i r).take k ∧ v.sent = st.sent) := by
  by_cases c1 : ef st.calls
  · constructor
    · intro v hv
      simp [emitTriple, emitOne, c1] at hv
    · intro v e hv
      simp [emitTriple, emitOne, c1, Prod.mk.injEq] at hv
      rw [← hv.1]
      exact ⟨0, by decide, by simp, rfl⟩
  · by_cases c2 : ef (st.calls + 1)
    · constructor
      · intro v hv
        simp [emitTriple, emitOne, c1, c2] at hv
      · intro v e hv
        simp [emitTriple, emitOne, c1, c2, Prod.mk.injEq] at hv
        rw [← hv.1]
        exact ⟨1, by decide, by simp [tripleEvents], rfl⟩
    · by_cases c3 : ef (st.calls + 1 + 1)
      · constructor
        · intro v hv
          simp [emitTriple, emitOne, c1, c2, c3] at hv
        · intro v e hv
          simp [emitTriple, emitOne, c1, c2, c3, Prod.mk.injEq] at hv
          rw [← hv.1]
          exact ⟨2, by decide, by simp [tripleEvents], rfl⟩
      · constructor
        · intro v hv
          simp [emitTriple, emitOne, c1, c2, c3, Prod.mk.injEq] at hv
          rw [← hv]
          refine ⟨by simp [tripleEvents], rfl, rfl⟩
        · intro v e hv
          simp [emitTriple, emitOne, c1, c2, c3] at hv

/-- Appending one fully emitted triple preserves the complete-log invariant. -/
theorem emitLogComplete_push (st st1 : EmitState) (ef : Nat → Bool) (u : String)
    (i : AssertionInfo) (r : AssertionRunEvent) (hu : r.assertionUrn = u)
    (h : EmitLogComplete st) (he : emitTriple ef st u i r = (st1, .ok ())) :
    EmitLogComplete st1 := by
  obtain ⟨hl, hs, _⟩ := (emitTriple_spec ef st u i r).1 st1 he
  obtain ⟨ts, hlog, hsent, hurn⟩ := h
  refine ⟨ts ++ [(u, i, r)], ?_, ?_, ?_⟩
  · rw [hl, hlog]; simp
  · rw [hs, hsent]; simp
  · intro t ht
    rcases List.mem_append.mp ht with h1 | h2
    · exact hurn t h1
    · simp at h2; subst h2; exact hu

/-- A failed triple turns a complete log into an aborted one. -/
theorem emitLogAborted_push (st st1 : EmitState) (ef : Nat → Bool) (u : String)
    (i : AssertionInfo) (r : AssertionRunEvent) (e : String) (hu : r.assertionUrn = u)
    (h : EmitLogComplete st) (he : emitTriple ef st u i r = (st1, .error e)) :
    EmitLogAborted st1 := by
  obtain ⟨k, hk, hl, hs⟩ := (emitTriple_spec ef st u i r).2 st1 e he
  obtain ⟨ts, hlog, hsent, hurn⟩ := h
  exact ⟨ts, k, u, i, r, by rw [hl, hlog], by rw [hs, hsent], hurn, hk, hu⟩

/-- The check loop preserves the complete-log invariant on success and leaves
an aborted log on failure. -/
theorem processChecks_inv (ef : Nat → Bool) (sel : List PyVal) (urn : String)
    (sid : PyVal) (rid : String) (now : Nat) (st : EmitState)
    (h : EmitLogComplete st) :
    (∀ v u, processChecks ef sel urn sid rid now st = (v, .ok u) → EmitLogComplete v)
    ∧ (∀ v e, processChecks ef sel urn sid rid now st = (v, .error e) → EmitLogAborted v) := by
  induction sel generalizing st with
  | nil =>
    constructor
    · intro v u hv
      rw [processChecks, Prod.mk.injEq] at hv
      rw [← hv.1]; exact h
    · intro v e hv
      rw [processChecks, Prod.mk.injEq] at hv
      exact absurd hv.2 (by simp)
  | cons c rest ih =>
    have key : ∀ v ex, processChecks ef (c :: rest) urn sid rid now st = (v, ex) →
        (∃ st2, EmitLogComplete st2 ∧ processChecks ef rest urn sid rid now st2 = (v, ex))
        ∨ (ex ≠ Except.ok () ∧ EmitLogAborted v) := by
      intro v ex hv
      rw [processChecks] at hv
      match hc : convertCheckToAssertion c urn sid rid now with
      | (some i, some r) =>
        rw [hc] at hv
        simp only at hv
        match he : emitTriple ef st r.assertionUrn i r with
        | (st1, .error e) =>
          rw [he] at hv
          simp only at hv
          rw [Prod.mk.injEq] at hv
          refine .inr ⟨by rw [← hv.2]; simp, ?_⟩
          rw [← hv.1]
          exact emitLogAborted_push st st1 ef r.assertionUrn i r e rfl h he
        | (st1, .ok a) =>
          rw [he] at hv
          simp only at hv
          exact .inl ⟨st1, emitLogComplete_push st st1 ef r.assertionUrn i r rfl h he, hv⟩
      | (some i, none) =>
        rw [hc] at hv
        simp only at hv
        exact .inl ⟨st, h, hv⟩
      | (none, some r) =>
        rw [hc] at hv
        simp only at hv
        exact .inl ⟨st, h, hv⟩
      | (none, none) =>
        rw [hc] at hv
        simp only at hv
        exact .inl ⟨st, h, hv⟩
    constructor
    · intro v u hv
      rcases key v (.ok u) hv with ⟨st2, hc2, hrest⟩ | ⟨hne, _⟩
      · exact (ih st2 hc2).1 v u hrest
      · exact absurd rfl hne
    · intro v e hv
      rcases key v (.error e) hv with ⟨st2, hc2, hrest⟩ | ⟨_, hab⟩
      · exact (ih st2 hc2).2 v e hrest
      · exact hab
/-- One table iteration either passes through the incoming state or defers to
the check loop started from it. -/
theorem processTable_cases (cfg : HandlerConfig) (ef : Nat → Bool)
    (dsn checks sid : PyVal) (rid : String) (now : Nat) (t : PyVal) (st : EmitState) :
    ∀ v ex, processTable cfg ef dsn checks sid rid now t st = (v, ex) →
      (v, ex) = (st, .ok ())
      ∨ (∃ e, (v, ex) = (st, .error e))
      ∨ (∃ sel urn, processChecks ef sel urn sid rid now st = (v, ex)) := by
  intro v ex hv
  rw [processTable] at hv
  match h1 : asDict t with
  | .error e =>
    rw [h1] at hv; simp only at hv
    exact .inr (.inl ⟨e, hv.symm⟩)
  | .ok td =>
    rw [h1] at hv; simp only at hv
    match h2 : platformInstanceGet cfg.platform_instance_map dsn with
    | .error e =>
      rw [h2] at hv; simp only at hv
      exact .inr (.inl ⟨e, hv.symm⟩)
    | .ok pinst =>
      rw [h2] at hv; simp only at hv
      match h3 : buildDatasetUrn cfg dsn (pyDictGetD td "databaseName" (.str ""))
          (pyDictGetD td "schemaName" (.str "")) (pyDictGetD td "tableName" (.str "")) pinst with
      | .error e =>
        rw [h3] at hv; simp only at hv
        exact .inr (.inl ⟨e, hv.symm⟩)
      | .ok none =>
        rw [h3] at hv; simp only at hv
        exact .inl hv.symm
      | .ok (some urn) =>
        rw [h3] at hv; simp only at hv
        by_cases hq : urn = ""
        · rw [if_pos hq] at hv
          exact .inl hv.symm
        · rw [if_neg hq] at hv
          match h4 : pyIter checks with
          | .error e =>
            rw [h4] at hv; simp only at hv
            exact .inr (.inl ⟨e, hv.symm⟩)
          | .ok cl =>
            rw [h4] at hv; simp only at hv
            match h5 : selectChecks cl (pyDictGetD td "tableName" (.str ""))
                (pyDictGetD td "schemaName" (.str "")) with
            | .error e =>
              rw [h5] at hv; simp only at hv
              exact .inr (.inl ⟨e, hv.symm⟩)
            | .ok sel =>
              rw [h5] at hv; simp only at hv
              exact .inr (.inr ⟨sel, urn, hv⟩)

/-- One table iteration preserves the complete-log invariant on success and
leaves an aborted log on failure. -/
theorem processTable_inv (cfg : HandlerConfig) (ef : Nat → Bool)
    (dsn checks sid : PyVal) (rid : String) (now : Nat) (t : PyVal) (st : EmitState)
    (h : EmitLogComplete st) :
    (∀ v u, processTable cfg ef dsn checks sid rid now t st = (v, .ok u) → EmitLogComplete v)
    ∧ (∀ v e, processTable cfg ef dsn checks sid rid now t st = (v, .error e) → EmitLogAborted v) := by
  constructor
  · intro v u hv
    rcases processTable_cases cfg ef dsn checks sid rid now t st v (.ok u) hv with
      hp | ⟨e, hp⟩ | ⟨sel, urn, hp⟩
    · rw [Prod.mk.injEq] at hp; rw [hp.1]; exact h
    · rw [Prod.mk.injEq] at hp; exact absurd hp.2 (by simp)
    · exact (processChecks_inv ef sel urn sid rid now st h).1 v u hp
  · intro v e hv
    rcases processTable_cases cfg ef dsn checks sid rid now t st v (.error e) hv with
      hp | ⟨e2, hp⟩ | ⟨sel, urn, hp⟩
    · rw [Prod.mk.injEq] at hp; exact absurd hp.2 (by simp)
    · rw [Prod.mk.injEq] at hp
      rw [hp.1]; exact h.toAborted st
    · exact (processChecks_inv ef sel urn sid rid now st h).2 v e hp

/-- The table loop preserves the complete-log invariant on success and leaves
an aborted log on failure. -/
theorem processTables_inv (cfg : HandlerConfig) (ef : Nat → Bool)
    (dsn checks sid : PyVal) (rid : String) (now : Nat) (tl : List PyVal) (st : EmitState)
    (h : EmitLogComplete st) :
    (∀ v u, processTables cfg ef dsn checks sid rid now tl st = (v, .ok u) → EmitLogComplete v)
    ∧ (∀ v e, processTables cfg ef dsn checks sid rid now tl st = (v, .error e) → EmitLogAborted v) := by
  induction tl generalizing st with
  | nil =>
    constructor
    · intro v u hv
      rw [processTables, Prod.mk.injEq] at hv
      rw [← hv.1]; exact h
    · intro v e hv
      rw [processTables, Prod.mk.injEq] at hv
      exact absurd hv.2 (by simp)
  | cons t rest ih =>
    constructor
    · intro v u hv
      rw [processTables] at hv
      match h1 : processTable cfg ef dsn checks sid rid now t st with
      | (st1, .error e) =>
        rw [h1] at hv; simp only at hv
        rw [Prod.mk.injEq] at hv
        exact absurd hv.2 (by simp)
      | (st1, .ok a) =>
        rw [h1] at hv; simp only at hv
        have hc1 := (processTable_inv cfg ef dsn checks sid rid now t st h).1 st1 a h1
        exact (ih st1 hc1).1 v u hv
    · intro v e hv
      rw [processTables] at hv
      match h1 : processTable cfg ef dsn checks sid rid now t st with
      | (st1, .error e2) =>
        rw [h1] at hv; simp only at hv
        rw [Prod.mk.injEq] at hv
        rw [← hv.1]
        exact (processTable_inv cfg ef dsn checks sid rid now t st h).2 st1 e2 h1
      | (st1, .ok a) =>
        rw [h1] at hv; simp only at hv
        have hc1 := (processTable_inv cfg ef dsn checks sid rid now t st h).1 st1 a h1
        exact (ih st1 hc1).2 v e hv

/-- The whole scan-processing body maintains the emit-log invariant. -/
theorem processCore_inv (cfg : HandlerConfig) (ef : Nat → Bool) (scan : PyVal)
    (rid : String) (nms ns : Nat) :
    ∀ st ex, processCore cfg ef scan rid nms ns = (st, ex) →
      (∀ r, ex = .ok r → EmitLogComplete st) ∧ (∀ e, ex = .error e → EmitLogAborted st) := by
  intro st ex hv
  rw [processCore] at hv
  match h1 : asDict scan with
  | .error e =>
    rw [h1] at hv; simp only at hv
    rw [Prod.mk.injEq] at hv
    constructor
    · intro r hr
      rw [← hv.2] at hr; simp at hr
    · intro e2 he2
      rw [← hv.1]
      exact emitLogComplete_init.toAborted EmitState.init
  | .ok scd =>
    rw [h1] at hv; simp only at hv
    match h2 : pyIter (pyDictGetD scd "tables" (.list [])) with
    | .error e =>
      rw [h2] at hv; simp only at hv
      rw [Prod.mk.injEq] at hv
      constructor
      · intro r hr
        rw [← hv.2] at hr; simp at hr
      · intro e2 he2
        rw [← hv.1]
        exact emitLogComplete_init.toAborted EmitState.init
    | .ok tl =>
      rw [h2] at hv; simp only at hv
      match h3 : processTables cfg ef (pyDictGetD scd "dataSourceName" (.str "unknown"))
          (pyDictGetD scd "checks" (.list []))
          (pyDictGetD scd "scanId" (.str ("scan_" ++ toString ns))) rid nms tl EmitState.init with
      | (st1, .error e) =>
        rw [h3] at hv; simp only at hv
        rw [Prod.mk.injEq] at hv
        constructor
        · intro r hr
          rw [← hv.2] at hr; simp at hr
        · intro e2 he2
          rw [← hv.1]
          exact (processTables_inv cfg ef _ _ _ rid nms tl EmitState.init
            emitLogComplete_init).2 st1 e h3
      | (st1, .ok a) =>
        rw [h3] at hv; simp only at hv
        rw [Prod.mk.injEq] at hv
        constructor
        · intro r hr
          rw [← hv.1]
          exact (processTables_inv cfg ef _ _ _ rid nms tl EmitState.init
            emitLogComplete_init).1 st1 a h3
        · intro e2 he2
          rw [← hv.2] at he2; simp at he2

/-- C9 (confirmed): every converted check causes exactly three emit calls, in
the order assertion-definition fact, platform-binding fact for platform
"soda", assertion-outcome fact, all keyed by the same assertion identifier,
and the `assertions_sent` counter counts exactly the fully emitted triples: on
a successful run the log is a concatenation of complete ordered triples, one
per counted assertion; on an aborted run at most a proper prefix of one
further uncounted triple follows; and with a never-failing emitter the emit
block of one converted check appends exactly its ordered triple and then
increments the counter. -/
theorem process_scan_result_emit_protocol :
    (∀ (cfg : HandlerConfig) (ef : Nat → Bool) (scan : PyVal) (rid : String) (nms ns : Nat),
      coreEmitInvariant (processCore cfg ef scan rid nms ns))
    ∧ (∀ (ef : Nat → Bool) (st : EmitState) (u : String) (i : AssertionInfo)
        (r : AssertionRunEvent), (∀ n, ef n = false) →
      emitTriple ef st u i r
        = ({ calls := st.calls + 3, log := st.log ++ tripleEvents u i r,
             sent := st.sent + 1 }, .ok ())) := by
  constructor
  · intro cfg ef scan rid nms ns
    match hq : processCore cfg ef scan rid nms ns with
    | (st, .ok r) =>
      have := (processCore_inv cfg ef scan rid nms ns st _ hq).1 r rfl
      unfold coreEmitInvariant
      simpa using this
    | (st, .error e) =>
      have := (processCore_inv cfg ef scan rid nms ns st _ hq).2 e rfl
      unfold coreEmitInvariant
      simpa using this
  · intro ef st u i r hef
    simp [emitTriple, emitOne, hef, tripleEvents]

/-- Witness for C9: the emit block of one converted check on a never-failing
emitter, evaluated through the theorem from the initial emitter state. -/
theorem process_scan_result_emit_protocol_witness :
    emitTriple (fun _ => false) EmitState.init "urn:li:assertion:a"
        ⟨"DATASET", ⟨"d", none, .NATIVE, .NATIVE, .pynone, [], .DATASET_ROWS⟩, []⟩
        ⟨0, "urn:li:assertion:a", "d", "r",
          ⟨.SUCCESS, none, none, none, none, []⟩, ⟨.pynone, .pynone, []⟩, "COMPLETE"⟩
      = ({ calls := 0 + 3,
           log := [] ++ tripleEvents "urn:li:assertion:a"
             ⟨"DATASET", ⟨"d", none, .NATIVE, .NATIVE, .pynone, [], .DATASET_ROWS⟩, []⟩
             ⟨0, "urn:li:assertion:a", "d", "r",
               ⟨.SUCCESS, none, none, none, none, []⟩, ⟨.pynone, .pynone, []⟩, "COMPLETE"⟩,
           sent := 0 + 1 }, .ok ()) :=
  process_scan_result_emit_protocol.2 (fun _ => false) EmitState.init "urn:li:assertion:a"
    ⟨"DATASET", ⟨"d", none, .NATIVE, .NATIVE, .pynone, [], .DATASET_ROWS⟩, []⟩
    ⟨0, "urn:li:assertion:a", "d", "r",
      ⟨.SUCCESS, none, none, none, none, []⟩, ⟨.pynone, .pynone, []⟩, "COMPLETE"⟩
    (fun n => rfl)
/-- A successful check selection is exactly the filter by the exact-equality
join predicate (and implies every element was a dict). -/
theorem selectChecks_ok_filter (checks : List PyVal) (tn sn : PyVal)
    (sel : List PyVal) (h : selectChecks checks tn sn = .ok sel) :
    sel = checks.filter (fun c =>
      match c with
      | .dict cd => pyEq (pyDictGet cd "table") tn && pyEq (pyDictGet cd "schema") sn
      | _ => false) := by
  induction checks generalizing sel with
  | nil =>
    simp only [selectChecks, Except.ok.injEq] at h
    rw [← h]; rfl
  | cons c rest ih =>
    cases c with
    | dict cd =>
      simp only [selectChecks] at h
      cases h2 : selectChecks rest tn sn with
      | error e => rw [h2] at h; simp at h
      | ok l =>
        rw [h2] at h; simp only [Except.ok.injEq] at h
        rw [← h, ih l h2]
        by_cases hk : (pyEq (pyDictGet cd "table") tn && pyEq (pyDictGet cd "schema") sn) = true
        · simp [List.filter, hk]
        · simp only [Bool.not_eq_true] at hk
          simp [List.filter, hk]
    | pynone => simp [selectChecks] at h
    | str s => simp [selectChecks] at h
    | int n => simp [selectChecks] at h
    | float q => simp [selectChecks] at h
    | bool b => simp [selectChecks] at h
    | list l => simp [selectChecks] at h

/-- Selecting over a list with a non-matching dict check removed gives the
same selection. -/
theorem selectChecks_drop (l1 l2 : List PyVal) (tn sn : PyVal)
    (cd : List (String × PyVal))
    (hk : (pyEq (pyDictGet cd "table") tn && pyEq (pyDictGet cd "schema") sn) = false) :
    selectChecks (l1 ++ .dict cd :: l2) tn sn = selectChecks (l1 ++ l2) tn sn := by
  induction l1 with
  | nil =>
    simp only [List.nil_append]
    simp only [selectChecks, hk]
    cases h2 : selectChecks l2 tn sn <;> simp
  | cons c rest ih =>
    simp only [List.cons_append]
    cases c with
    | dict cd0 => simp only [selectChecks, ih]
    | pynone => simp [selectChecks]
    | str s => simp [selectChecks]
    | int n => simp [selectChecks]
    | float q => simp [selectChecks]
    | bool b => simp [selectChecks]
    | list l => simp [selectChecks]

/-- Inversion of `asDict`: success means the value was that dict. -/
theorem asDict_ok (v : PyVal) (d : List (String × PyVal)) (h : asDict v = .ok d) :
    v = .dict d := by
  cases v <;> simp [asDict] at h
  exact congrArg PyVal.dict h

/-- Removing a check that matches no table leaves one table iteration
unchanged. -/
theorem processTable_drop (cfg : HandlerConfig) (ef : Nat → Bool) (dsn sid : PyVal)
    (rid : String) (now : Nat) (t : PyVal) (st : EmitState)
    (l1 l2 : List PyVal) (cd : List (String × PyVal))
    (hmatch : ∀ td, t = .dict td → checkMatchesTable cd td = false) :
    processTable cfg ef dsn (.list (l1 ++ .dict cd :: l2)) sid rid now t st
      = processTable cfg ef dsn (.list (l1 ++ l2)) sid rid now t st := by
  rw [processTable, processTable]
  cases h1 : asDict t with
  | error e => rfl
  | ok td =>
    have ht := asDict_ok t td h1
    simp only
    cases h2 : platformInstanceGet cfg.platform_instance_map dsn with
    | error e => rfl
    | ok pinst =>
      simp only
      cases h3 : buildDatasetUrn cfg dsn (pyDictGetD td "databaseName" (.str ""))
          (pyDictGetD td "schemaName" (.str "")) (pyDictGetD td "tableName" (.str "")) pinst with
      | error e => rfl
      | ok o =>
        cases o with
        | none => rfl
        | some urn =>
          simp only
          by_cases hq : urn = ""
          · rw [if_pos hq, if_pos hq]
          · rw [if_neg hq, if_neg hq]
            simp only [pyIter]
            have hk := hmatch td ht
            rw [checkMatchesTable] at hk
            rw [selectChecks_drop l1 l2 _ _ cd hk]

/-- Removing a check that matches no table leaves the whole table loop
unchanged. -/
theorem processTables_drop (cfg : HandlerConfig) (ef : Nat → Bool) (dsn sid : PyVal)
    (rid : String) (now : Nat) (tl : List PyVal) (st : EmitState)
    (l1 l2 : List PyVal) (cd : List (String × PyVal))
    (hmatch : ∀ t ∈ tl, ∀ td, t = .dict td → checkMatchesTable cd td = false) :
    processTables cfg ef dsn (.list (l1 ++ .dict cd :: l2)) sid rid now tl st
      = processTables cfg ef dsn (.list (l1 ++ l2)) sid rid now tl st := by
  induction tl generalizing st with
  | nil => rfl
  | cons t rest ih =>
    rw [processTables, processTables]
    rw [processTable_drop cfg ef dsn sid rid now t st l1 l2 cd
      (fun td ht => hmatch t (List.mem_cons_self t rest) td ht)]
    cases hp : processTable cfg ef dsn (.list (l1 ++ l2)) sid rid now t st with
    | mk st1 ex =>
      cases ex with
      | error e => rfl
      | ok a => exact ih st1 (fun t2 ht2 => hmatch t2 (List.mem_cons_of_mem t ht2))

/-- C4 (confirmed): the check-to-table join is exact string-free Python
equality on the `(table, schema)` pair with no case folding or normalization —
the checks selected for a table are precisely the filter by that equality —
and a check whose `(table, schema)` pair matches no table of the scan is never
converted, never emitted, and never counted: removing it from the scan leaves
the whole processing result, emit log included, unchanged. -/
theorem check_table_join_exact :
    (∀ (checks : List PyVal) (tn sn : PyVal) (sel : List PyVal),
      selectChecks checks tn sn = .ok sel →
      sel = checks.filter (fun c =>
        match c with
        | .dict cd => pyEq (pyDictGet cd "table") tn && pyEq (pyDictGet cd "schema") sn
        | _ => false))
    ∧ (∀ (cfg : HandlerConfig) (ef : Nat → Bool) (scd1 scd2 : List (String × PyVal))
        (rid : String) (nms ns : Nat) (l1 l2 : List PyVal) (cd : List (String × PyVal)),
        pyDictGetD scd1 "checks" (.list []) = .list (l1 ++ .dict cd :: l2) →
        pyDictGetD scd2 "checks" (.list []) = .list (l1 ++ l2) →
        pyDictGetD scd1 "scanId" (.str ("scan_" ++ toString ns))
          = pyDictGetD scd2 "scanId" (.str ("scan_" ++ toString ns)) →
        pyDictGetD scd1 "dataSourceName" (.str "unknown")
          = pyDictGetD scd2 "dataSourceName" (.str "unknown") →
        pyDictGetD scd1 "tables" (.list []) = pyDictGetD scd2 "tables" (.list []) →
        (∀ tl, pyIter (pyDictGetD scd1 "tables" (.list [])) = .ok tl →
          ∀ t ∈ tl, ∀ td, t = .dict td → checkMatchesTable cd td = false) →
        processCore cfg ef (.dict scd1) rid nms ns
          = processCore cfg ef (.dict scd2) rid nms ns) := by
  refine ⟨selectChecks_ok_filter, ?_⟩
  intro cfg ef scd1 scd2 rid nms ns l1 l2 cd hc1 hc2 hscan hdsn htab hmatch
  rw [processCore, processCore]
  simp only [asDict]
  rw [hc1, hc2, hscan, hdsn, htab]
  cases hti : pyIter (pyDictGetD scd2 "tables" (.list [])) with
  | error e => rfl
  | ok tl =>
    simp only
    rw [processTables_drop cfg ef _ _ rid nms tl EmitState.init l1 l2 cd
      (hmatch tl (htab ▸ hti))]

/-- Witness for C4: a scan with one table `public.users` and one check whose
`table` field is "Users" (case mismatch): removing the non-matching check
leaves the processing result unchanged, through the theorem. -/
theorem check_table_join_exact_witness :
    processCore
        { env := "PROD", platform_alias := none, platform_instance_map := [],
          graceful_exceptions := true, convert_urns_to_lowercase := false }
        (fun _ => false)
        (.dict [("tables", .list [.dict [("tableName", .str "users"), ("schemaName", .str "public")]]),
                ("checks", .list [.dict [("table", .str "Users"), ("schema", .str "public")]])])
        "2024-01-01T00:00:00Z" 0 0
      = processCore
        { env := "PROD", platform_alias := none, platform_instance_map := [],
          graceful_exceptions := true, convert_urns_to_lowercase := false }
        (fun _ => false)
        (.dict [("tables", .list [.dict [("tableName", .str "users"), ("schemaName", .str "public")]]),
                ("checks", .list [])])
        "2024-01-01T00:00:00Z" 0 0 := by
  refine check_table_join_exact.2
    { env := "PROD", platform_alias := none, platform_instance_map := [],
      graceful_exceptions := true, convert_urns_to_lowercase := false }
    (fun _ => false)
    [("tables", .list [.dict [("tableName", .str "users"), ("schemaName", .str "public")]]),
     ("checks", .list [.dict [("table", .str "Users"), ("schema", .str "public")]])]
    [("tables", .list [.dict [("tableName", .str "users"), ("schemaName", .str "public")]]),
     ("checks", .list [])]
    "2024-01-01T00:00:00Z" 0 0 [] []
    [("table", .str "Users"), ("schema", .str "public")]
    rfl rfl rfl rfl rfl ?_
  intro tl htl t ht td htd
  simp [pyDictGetD, pyIter] at htl
  subst htl
  simp only [List.mem_singleton] at ht
  subst ht
  injection htd with h2
  rw [← h2]
  decide
